import Mathlib

/-!
# PSMoveService configuration tool: the color-calibration stage

A shallow embedding of `src/psmoveconfigtool/AppStage_ColorCalibration.cpp`.

The stage is a record of its member variables.  Every member function becomes a
pure function from the record (and the arguments of the call) to the new record
together with the ordered list of calls the function makes on its collaborators
(`ClientPSMoveAPI`, the tracker view behind `m_trackerView`, the texture behind
`m_videoTexture`, the `App`).  A value that such a call returns to the stage
(`openVideoStream()`, `getVideoFrameWidth()`, `pollVideoStream()`, ...) is an
argument of the embedded function.

Modelling conventions:
* `double` and `float` values are finite and are modelled as rational numbers;
  the functions embedded here only store and copy them.
* `int` values are modelled as `Int`; the functions embedded here do no
  arithmetic on them.
* A pointer member is an `Option`: `none` is `nullptr`.  A call made through
  `m_trackerView` is recorded as a call whatever the pointer holds: the
  embedding does not represent the undefined behaviour of a call through a null
  pointer.
-/

/-! ## Types declared outside the implementation file -/

/-- Modelled from the spec: the enumeration `eTrackerMenuState` is declared in
`AppStage_ColorCalibration.h`, which is not among the sources; these are the six
enumerators the implementation file names. -/
inductive eTrackerMenuState where
  | inactive
  | idle
  | pendingTrackerStartStreamRequest
  | failedTrackerStartStreamRequest
  | pendingTrackerStopStreamRequest
  | failedTrackerStopStreamRequest
  deriving DecidableEq, Repr

/-- Modelled from the spec: the enumeration `eVideoDisplayMode` is declared in
`AppStage_ColorCalibration.h`; the implementation file names `mode_bgr` and
`MAX_VIDEO_DISPLAY_MODES` and has three display-mode names (BGR, HSV, HSV Range). -/
inductive eVideoDisplayMode where
  | mode_bgr
  | mode_hsv
  | mode_hsv_range
  deriving DecidableEq, Repr

/-- Modelled from the spec: `ClientPSMoveAPI::eClientPSMoveResultCode`, the three
outcome codes {Ok, Error, Canceled} of a response. -/
inductive eClientPSMoveResultCode where
  | _clientPSMoveResultCode_ok
  | _clientPSMoveResultCode_error
  | _clientPSMoveResultCode_canceled
  deriving DecidableEq, Repr

/-- Modelled from the spec: `AppStage_ColorCalibration::TrackerOption`
{name, ordered list of string values, current selected index}, with the member
names the implementation file uses. -/
structure TrackerOption where
  option_name : String
  option_strings : List String
  option_index : Int
  deriving DecidableEq, Repr

/-- Modelled from the spec: the `TextureAsset` behind `m_videoTexture`, recorded
by the width and height it was initialised with. -/
structure TextureAsset where
  width : Int
  height : Int
  deriving DecidableEq, Repr

/-- Modelled from the spec: what the `ClientTrackerView` behind `m_trackerView`
returns to the calls the stage makes through it. -/
structure ClientTrackerView where
  getTrackerId : Int
  openVideoStream : Bool
  getVideoFrameWidth : Int
  getVideoFrameHeight : Int
  deriving DecidableEq, Repr

/-- Modelled from the spec: the `ClientTrackerInfo` of the tracker selected in
the tracker-settings stage, of which `enter` reads `tracker_id`. -/
structure ClientTrackerInfo where
  tracker_id : Int
  deriving DecidableEq, Repr

/-- Modelled from the spec: `PSMoveProtocol::OptionSet`, one option of the
tracker-settings result. -/
structure OptionSet where
  option_name : String
  option_index : Int
  option_strings : List String
  deriving DecidableEq, Repr

/-- Modelled from the spec: the `result_set_tracker_exposure` part of
`PSMoveProtocol::Response`. -/
structure Response_ResultSetTrackerExposure where
  new_exposure : ℚ
  deriving DecidableEq, Repr

/-- Modelled from the spec: the `result_set_tracker_gain` part of
`PSMoveProtocol::Response`. -/
structure Response_ResultSetTrackerGain where
  new_gain : ℚ
  deriving DecidableEq, Repr

/-- Modelled from the spec: the `result_set_tracker_option` part of
`PSMoveProtocol::Response`. -/
structure Response_ResultSetTrackerOption where
  option_name : String
  new_option_index : Int
  deriving DecidableEq, Repr

/-- Modelled from the spec: the `result_tracker_settings` part of
`PSMoveProtocol::Response`. -/
structure Response_ResultTrackerSettings where
  exposure : ℚ
  gain : ℚ
  option_sets : List OptionSet
  deriving DecidableEq, Repr

/-- Modelled from the spec: `PSMoveProtocol::Response`, the message behind the
opaque response handle, with the four result parts the handlers read. -/
structure Response where
  result_set_tracker_exposure : Response_ResultSetTrackerExposure
  result_set_tracker_gain : Response_ResultSetTrackerGain
  result_set_tracker_option : Response_ResultSetTrackerOption
  result_tracker_settings : Response_ResultTrackerSettings
  deriving DecidableEq, Repr

/-- Modelled from the spec: `ClientPSMoveAPI::ResponseMessage`.  The member
`opaque_response_handle` holds the message that `GET_PSMOVEPROTOCOL_RESPONSE`
reads from the handle. -/
structure ResponseMessage where
  result_code : eClientPSMoveResultCode
  opaque_response_handle : Response
  deriving DecidableEq, Repr

/-- Modelled from the spec: `PSMoveProtocol::Request` as the implementation file
fills it in: the request type with the fields set for it.  `value` is the
`double` argument of the call, before `static_cast<float>`. -/
inductive Request where
  | SET_TRACKER_EXPOSURE (tracker_id : Int) (value : ℚ)
  | SET_TRACKER_GAIN (tracker_id : Int) (value : ℚ)
  | SET_TRACKER_OPTION (tracker_id : Int) (option_name : String) (option_index : Int)
  | GET_TRACKER_SETTINGS (tracker_id : Int)
  deriving DecidableEq, Repr

/-- The six static response handlers of the stage, as the function argument of
`ClientPSMoveAPI::register_callback`. -/
inductive Callback where
  | handle_tracker_start_stream_response
  | handle_tracker_stop_stream_response
  | handle_tracker_set_exposure_response
  | handle_tracker_set_gain_response
  | handle_tracker_set_option_response
  | handle_tracker_get_settings_response
  deriving DecidableEq, Repr

/-- Modelled from the spec: the stages `App::setAppStage` is asked for, named in
the implementation file by their `APP_STAGE_NAME`. -/
inductive AppStageName where
  | AppStage_TrackerSettings
  | AppStage_MainMenu
  deriving DecidableEq, Repr

/-- The calls the stage makes on its collaborators.  A member function of the
embedding returns them in the order in which the source makes them.  The calls
that only read a value from the tracker view (`getTrackerId`,
`getVideoFrameWidth`, `getVideoFrameHeight`, `getVideoFrameBuffer`) are not
recorded. -/
inductive Effect where
  | start_tracker_data_stream (trackerView : Option Nat)
  | stop_tracker_data_stream (trackerView : Option Nat)
  | send_opaque_request (request : Request)
  | register_callback (callback : Callback)
  | openVideoStream
  | closeVideoStream
  | pollVideoStream
  | new_TextureAsset_init (width height : Int)
  | delete_TextureAsset
  | copyBufferIntoTexture
  | setAppStage (name : AppStageName)
  | CLIENT_LOG_INFO (message : String)
  | setCameraType_cameraFixed
  | allocate_tracker_view (tracker_id : Int)
  | free_tracker_view (trackerView : Option Nat)
  deriving DecidableEq, Repr

/-! ## The stage -/

/-- The member variables of `AppStage_ColorCalibration`.  `m_trackerView` holds
the address of the allocated tracker view. -/
structure AppStage_ColorCalibration where
  m_menuState : eTrackerMenuState
  m_bStreamIsActive : Bool
  m_trackerView : Option Nat
  m_videoTexture : Option TextureAsset
  m_videoDisplayMode : eVideoDisplayMode
  m_trackerExposure : ℚ
  m_trackerGain : ℚ
  m_trackerOptions : List TrackerOption
  deriving DecidableEq, Repr

namespace AppStage_ColorCalibration

open eTrackerMenuState eClientPSMoveResultCode

/-- The constructor `AppStage_ColorCalibration::AppStage_ColorCalibration`. -/
def new : AppStage_ColorCalibration :=
  { m_menuState := inactive
    m_bStreamIsActive := false
    m_trackerView := none
    m_videoTexture := none
    m_videoDisplayMode := eVideoDisplayMode.mode_bgr
    m_trackerExposure := 0
    m_trackerGain := 0
    m_trackerOptions := [] }

/-- The member function `update`: `pollVideoStream` is what the tracker view
answers to the poll, when the poll is made. -/
def update (s : AppStage_ColorCalibration) (pollVideoStream : Bool) :
    AppStage_ColorCalibration × List Effect :=
  if s.m_videoTexture ≠ none then
    if pollVideoStream then
      (s, [Effect.pollVideoStream, Effect.copyBufferIntoTexture])
    else
      (s, [Effect.pollVideoStream])
  else
    (s, [])

/-- The member function `request_tracker_get_settings`. -/
def request_tracker_get_settings (s : AppStage_ColorCalibration) (trackerID : Int) :
    AppStage_ColorCalibration × List Effect :=
  (s, [Effect.send_opaque_request (Request.GET_TRACKER_SETTINGS trackerID),
       Effect.register_callback Callback.handle_tracker_get_settings_response])

/-- The member function `request_tracker_start_stream`. -/
def request_tracker_start_stream (s : AppStage_ColorCalibration) (_trackerID : Int) :
    AppStage_ColorCalibration × List Effect :=
  if s.m_menuState ≠ pendingTrackerStartStreamRequest then
    ({ s with m_menuState := pendingTrackerStartStreamRequest },
     [Effect.start_tracker_data_stream s.m_trackerView,
      Effect.register_callback Callback.handle_tracker_start_stream_response])
  else
    (s, [])

/-- The static member function `handle_tracker_start_stream_response`, with the
stage behind `userdata` as `s` and the tracker view behind `m_trackerView` as
`trackerView`. -/
def handle_tracker_start_stream_response (s : AppStage_ColorCalibration)
    (response : ResponseMessage) (trackerView : ClientTrackerView) :
    AppStage_ColorCalibration × List Effect :=
  match response.result_code with
  | _clientPSMoveResultCode_ok =>
    let s1 := { s with m_bStreamIsActive := true, m_menuState := idle }
    let opened : AppStage_ColorCalibration × List Effect :=
      if trackerView.openVideoStream then
        let texture : TextureAsset :=
          { width := trackerView.getVideoFrameWidth
            height := trackerView.getVideoFrameHeight }
        ({ s1 with m_videoTexture := some texture },
         [Effect.openVideoStream,
          Effect.new_TextureAsset_init trackerView.getVideoFrameWidth
            trackerView.getVideoFrameHeight])
      else
        (s1, [Effect.openVideoStream])
    let settings := opened.1.request_tracker_get_settings trackerView.getTrackerId
    (settings.1, opened.2 ++ settings.2)
  | _clientPSMoveResultCode_error
  | _clientPSMoveResultCode_canceled =>
    ({ s with m_menuState := failedTrackerStartStreamRequest }, [])

/-- The member function `request_tracker_stop_stream`. -/
def request_tracker_stop_stream (s : AppStage_ColorCalibration) (_trackerID : Int) :
    AppStage_ColorCalibration × List Effect :=
  if s.m_bStreamIsActive ∧ s.m_menuState ≠ pendingTrackerStopStreamRequest then
    ({ s with m_menuState := pendingTrackerStopStreamRequest },
     [Effect.stop_tracker_data_stream s.m_trackerView,
      Effect.register_callback Callback.handle_tracker_stop_stream_response])
  else
    (s, [])

/-- The static member function `handle_tracker_stop_stream_response`. -/
def handle_tracker_stop_stream_response (s : AppStage_ColorCalibration)
    (response : ResponseMessage) : AppStage_ColorCalibration × List Effect :=
  let s1 := { s with m_bStreamIsActive := false }
  match response.result_code with
  | _clientPSMoveResultCode_ok =>
    let s2 := { s1 with m_menuState := inactive }
    let freed : AppStage_ColorCalibration × List Effect :=
      if s2.m_videoTexture ≠ none then
        ({ s2 with m_videoTexture := none },
         [Effect.closeVideoStream, Effect.delete_TextureAsset])
      else
        (s2, [Effect.closeVideoStream])
    (freed.1, freed.2 ++ [Effect.setAppStage AppStageName.AppStage_TrackerSettings])
  | _clientPSMoveResultCode_error
  | _clientPSMoveResultCode_canceled =>
    ({ s1 with m_menuState := failedTrackerStopStreamRequest }, [])

/-- The member function `request_tracker_set_exposure`. -/
def request_tracker_set_exposure (s : AppStage_ColorCalibration) (trackerID : Int)
    (value : ℚ) : AppStage_ColorCalibration × List Effect :=
  (s, [Effect.send_opaque_request (Request.SET_TRACKER_EXPOSURE trackerID value),
       Effect.register_callback Callback.handle_tracker_set_exposure_response])

/-- The static member function `handle_tracker_set_exposure_response`. -/
def handle_tracker_set_exposure_response (s : AppStage_ColorCalibration)
    (response : ResponseMessage) : AppStage_ColorCalibration × List Effect :=
  match response.result_code with
  | _clientPSMoveResultCode_ok =>
    let new_exposure :=
      response.opaque_response_handle.result_set_tracker_exposure.new_exposure
    ({ s with m_trackerExposure := new_exposure }, [])
  | _clientPSMoveResultCode_error
  | _clientPSMoveResultCode_canceled =>
    (s, [Effect.CLIENT_LOG_INFO "Failed to set the tracker exposure!"])

/-- The member function `request_tracker_set_gain`. -/
def request_tracker_set_gain (s : AppStage_ColorCalibration) (trackerID : Int)
    (value : ℚ) : AppStage_ColorCalibration × List Effect :=
  (s, [Effect.send_opaque_request (Request.SET_TRACKER_GAIN trackerID value),
       Effect.register_callback Callback.handle_tracker_set_gain_response])

/-- The static member function `handle_tracker_set_gain_response`. -/
def handle_tracker_set_gain_response (s : AppStage_ColorCalibration)
    (response : ResponseMessage) : AppStage_ColorCalibration × List Effect :=
  match response.result_code with
  | _clientPSMoveResultCode_ok =>
    let new_gain := response.opaque_response_handle.result_set_tracker_gain.new_gain
    ({ s with m_trackerGain := new_gain }, [])
  | _clientPSMoveResultCode_error
  | _clientPSMoveResultCode_canceled =>
    (s, [Effect.CLIENT_LOG_INFO "Failed to set the tracker gain!"])

/-- The member function `request_tracker_set_option`. -/
def request_tracker_set_option (s : AppStage_ColorCalibration) (trackerID : Int)
    (option : TrackerOption) (new_option_index : Int) :
    AppStage_ColorCalibration × List Effect :=
  (s, [Effect.send_opaque_request
         (Request.SET_TRACKER_OPTION trackerID option.option_name new_option_index),
       Effect.register_callback Callback.handle_tracker_set_option_response])

/-- The call of `std::find_if` over a vector: the position of the first element
that satisfies `p`, or the length of the vector (the position of `end()`) when
there is none. -/
def find_if {α : Type} (p : α → Bool) : List α → Nat
  | [] => 0
  | x :: xs => if p x then 0 else find_if p xs + 1

/-- The assignment `it->option_index = result_option_index` through the iterator
at position `it` of the option vector. -/
def assign_option_index : List TrackerOption → Nat → Int → List TrackerOption
  | [], _, _ => []
  | option :: options, 0, result_option_index =>
    { option with option_index := result_option_index } :: options
  | option :: options, it + 1, result_option_index =>
    option :: assign_option_index options it result_option_index

/-- The static member function `handle_tracker_set_option_response`. -/
def handle_tracker_set_option_response (s : AppStage_ColorCalibration)
    (response : ResponseMessage) : AppStage_ColorCalibration × List Effect :=
  match response.result_code with
  | _clientPSMoveResultCode_ok =>
    let result_option_index :=
      response.opaque_response_handle.result_set_tracker_option.new_option_index
    let option_name := response.opaque_response_handle.result_set_tracker_option.option_name
    let it := find_if (fun option => option.option_name == option_name) s.m_trackerOptions
    if it ≠ s.m_trackerOptions.length then
      let assigned := assign_option_index s.m_trackerOptions it result_option_index
      ({ s with m_trackerOptions := assigned }, [])
    else
      (s, [])
  | _clientPSMoveResultCode_error
  | _clientPSMoveResultCode_canceled =>
    (s, [Effect.CLIENT_LOG_INFO "Failed to set the tracker gain!"])

/-- The body of the loop of `handle_tracker_get_settings_response` up to the
`push_back`: the `destOption` built from `srcOption`, its strings pushed back one
by one onto the empty vector. -/
def destOption (srcOption : OptionSet) : TrackerOption :=
  { option_index := srcOption.option_index
    option_name := srcOption.option_name
    option_strings :=
      srcOption.option_strings.foldl
        (fun option_strings option_string => option_strings ++ [option_string]) [] }

/-- The static member function `handle_tracker_get_settings_response`: the loop
pushes each `destOption` back onto the cleared vector. -/
def handle_tracker_get_settings_response (s : AppStage_ColorCalibration)
    (response : ResponseMessage) : AppStage_ColorCalibration × List Effect :=
  match response.result_code with
  | _clientPSMoveResultCode_ok =>
    let settings := response.opaque_response_handle.result_tracker_settings
    let s1 := { s with m_trackerExposure := settings.exposure }
    let s2 := { s1 with m_trackerGain := settings.gain }
    let s3 := { s2 with m_trackerOptions := [] }
    let pushed :=
      settings.option_sets.foldl
        (fun options srcOption => options ++ [destOption srcOption]) s3.m_trackerOptions
    ({ s3 with m_trackerOptions := pushed }, [])
  | _clientPSMoveResultCode_error
  | _clientPSMoveResultCode_canceled =>
    (s, [Effect.CLIENT_LOG_INFO "Failed to get the tracker settings!"])

/-- The stage after `n` calls of `update`; the poll of tick `i` answers `poll i`. -/
def updateTicks (s : AppStage_ColorCalibration) (poll : Nat → Bool) :
    Nat → AppStage_ColorCalibration
  | 0 => s
  | n + 1 => ((updateTicks s poll n).update (poll n)).1

/-- The stage after the trace [start request, start response, `n` update ticks]. -/
def startUpdate (s : AppStage_ColorCalibration) (trackerID : Int)
    (startResponse : ResponseMessage) (trackerView : ClientTrackerView)
    (n : Nat) (poll : Nat → Bool) : AppStage_ColorCalibration :=
  let requested := (s.request_tracker_start_stream trackerID).1
  let started := (requested.handle_tracker_start_stream_response startResponse trackerView).1
  started.updateTicks poll n

/-- The stage after the trace [start request, start response, `n` update ticks,
stop request, stop response]. -/
def startUpdateStop (s : AppStage_ColorCalibration) (trackerID : Int)
    (startResponse : ResponseMessage) (trackerView : ClientTrackerView)
    (n : Nat) (poll : Nat → Bool) (stopResponse : ResponseMessage) :
    AppStage_ColorCalibration :=
  let ticked := s.startUpdate trackerID startResponse trackerView n poll
  let stopping := (ticked.request_tracker_stop_stream trackerID).1
  (stopping.handle_tracker_stop_stream_response stopResponse).1

/-- The three assertions of the member function `enter`: the selected tracker
has an id, no tracker view is allocated, and no stream is active. -/
def enter_asserts (s : AppStage_ColorCalibration) (trackerInfo : ClientTrackerInfo) : Bool :=
  decide (trackerInfo.tracker_id ≠ -1) && decide (s.m_trackerView = none) &&
    !s.m_bStreamIsActive

/-- The member function `enter`, its assertions apart (`enter_asserts`; `assert`
does nothing in a build with `NDEBUG`).  `trackerInfo` is the selected tracker,
`allocated` the address of the tracker view that
`ClientPSMoveAPI::allocate_tracker_view` returns and `trackerView` that view. -/
def enter (s : AppStage_ColorCalibration) (trackerInfo : ClientTrackerInfo)
    (allocated : Nat) (trackerView : ClientTrackerView) :
    AppStage_ColorCalibration × List Effect :=
  let s1 := { s with m_trackerView := some allocated }
  let settings := s1.request_tracker_get_settings trackerView.getTrackerId
  let start := settings.1.request_tracker_start_stream trackerView.getTrackerId
  (start.1,
   [Effect.setCameraType_cameraFixed, Effect.allocate_tracker_view trackerInfo.tracker_id] ++
     settings.2 ++ start.2)

/-- The member function `exit`. -/
def exit (s : AppStage_ColorCalibration) : AppStage_ColorCalibration × List Effect :=
  let s1 := { s with m_menuState := inactive }
  ({ s1 with m_trackerView := none }, [Effect.free_tracker_view s1.m_trackerView])

/-- The member function `renderUI`, as far as it decides whether the calibration
controls (video filter mode, exposure, gain, options) are drawn: in the case
`idle` of the switch on the menu state, under `if (m_bStreamIsActive)`. -/
def renderUI_offers_calibration (s : AppStage_ColorCalibration) : Bool :=
  match s.m_menuState with
  | idle => s.m_bStreamIsActive
  | _ => false

/-- The value of an expression of type `int`: 32 bits, two's complement. -/
def int32 (x : Int) : Int :=
  (x + 2147483648) % 4294967296 - 2147483648

/-- The option loop of `renderUI`:
`const int value_count = static_cast<int>(option.option_strings.size())`. -/
def value_count (option : TrackerOption) : Int :=
  int32 option.option_strings.length

/-- The option loop of `renderUI`: the index that the button "<" requests,
`(option.option_index + value_count - 1) % value_count`, with the `%` of C++
(the remainder of the division that truncates). -/
def previous_option_index (option : TrackerOption) : Int :=
  Int.tmod (int32 (int32 (option.option_index + value_count option) - 1)) (value_count option)

/-- The option loop of `renderUI`: the index that the button ">" requests,
`(option.option_index + 1) % value_count`. -/
def next_option_index (option : TrackerOption) : Int :=
  Int.tmod (int32 (option.option_index + 1)) (value_count option)

/-- The option loop of `renderUI`: the request that the button "<" makes for
`option`. -/
def renderUI_previous_option (s : AppStage_ColorCalibration) (trackerInfo : ClientTrackerInfo)
    (option : TrackerOption) : AppStage_ColorCalibration × List Effect :=
  s.request_tracker_set_option trackerInfo.tracker_id option (previous_option_index option)

/-- The option loop of `renderUI`: the request that the button ">" makes for
`option`. -/
def renderUI_next_option (s : AppStage_ColorCalibration) (trackerInfo : ClientTrackerInfo)
    (option : TrackerOption) : AppStage_ColorCalibration × List Effect :=
  s.request_tracker_set_option trackerInfo.tracker_id option (next_option_index option)

/-- Every entry of the option list has a selected index that is a position in
its own list of value strings, as the option loop of `renderUI` needs it for
`option.option_strings[option.option_index]`. -/
def ValidOptions (options : List TrackerOption) : Prop :=
  ∀ option ∈ options,
    0 ≤ option.option_index ∧ option.option_index < option.option_strings.length

end AppStage_ColorCalibration

/-! ## Requests in flight -/

/-- The callback that a call registers, when the call is `register_callback`. -/
def Effect.registers : Effect → Option Callback
  | Effect.register_callback callback => some callback
  | _ => none

/-- The callbacks that a list of calls registers, in order. -/
def registered (effects : List Effect) : List Callback :=
  effects.filterMap Effect.registers

/-- The call of a registered callback with a response: the handler it names, on
the stage it was registered with. -/
def Callback.call (callback : Callback) (s : AppStage_ColorCalibration)
    (response : ResponseMessage) (trackerView : ClientTrackerView) :
    AppStage_ColorCalibration × List Effect :=
  match callback with
  | Callback.handle_tracker_start_stream_response =>
    s.handle_tracker_start_stream_response response trackerView
  | Callback.handle_tracker_stop_stream_response =>
    s.handle_tracker_stop_stream_response response
  | Callback.handle_tracker_set_exposure_response =>
    s.handle_tracker_set_exposure_response response
  | Callback.handle_tracker_set_gain_response =>
    s.handle_tracker_set_gain_response response
  | Callback.handle_tracker_set_option_response =>
    s.handle_tracker_set_option_response response
  | Callback.handle_tracker_get_settings_response =>
    s.handle_tracker_get_settings_response response

/-- Modelled from the spec: the remote transport of `ClientPSMoveAPI`, which is
not among the sources ("send a typed request and register a one-shot callback
keyed to an opaque handle").  A session is the stage together with the callbacks
that were registered and have not been called yet: one for each request in
flight. -/
structure Session where
  stage : AppStage_ColorCalibration
  inFlight : List Callback
  deriving DecidableEq, Repr

/-- What happens to a session: the stage is asked to start or to stop the
stream, or the transport delivers the response to a request in flight by calling
the callback registered for it. -/
inductive StreamAction where
  | request_tracker_start_stream (trackerID : Int)
  | request_tracker_stop_stream (trackerID : Int)
  | deliver (callback : Callback) (response : ResponseMessage)
      (trackerView : ClientTrackerView)
  deriving DecidableEq, Repr

namespace Session

/-- The session of the freshly constructed stage: nothing is in flight. -/
def fresh : Session :=
  { stage := AppStage_ColorCalibration.new, inFlight := [] }

/-- One action.  The callbacks that the stage registers are added to the requests
in flight; a delivery takes its callback out of them (one-shot) and is possible
only for a callback that is in flight. -/
def step (σ : Session) : StreamAction → Option Session
  | StreamAction.request_tracker_start_stream trackerID =>
    let r := σ.stage.request_tracker_start_stream trackerID
    some { stage := r.1, inFlight := σ.inFlight ++ registered r.2 }
  | StreamAction.request_tracker_stop_stream trackerID =>
    let r := σ.stage.request_tracker_stop_stream trackerID
    some { stage := r.1, inFlight := σ.inFlight ++ registered r.2 }
  | StreamAction.deliver callback response trackerView =>
    if callback ∈ σ.inFlight then
      let r := callback.call σ.stage response trackerView
      some { stage := r.1, inFlight := σ.inFlight.erase callback ++ registered r.2 }
    else
      none

/-- A sequence of actions, from left to right; `none` when one of them is the
delivery of a response to a request that is not in flight. -/
def run (σ : Session) : List StreamAction → Option Session
  | [] => some σ
  | action :: actions =>
    match σ.step action with
    | some σ1 => σ1.run actions
    | none => none

/-- The number of stream-lifecycle requests (start or stop) in flight. -/
def streamRequestsInFlight (σ : Session) : Nat :=
  σ.inFlight.count Callback.handle_tracker_start_stream_response +
    σ.inFlight.count Callback.handle_tracker_stop_stream_response

/-- The action is not a start request made in menu state
`pendingTrackerStopStreamRequest`, nor a stop request made in menu state
`pendingTrackerStartStreamRequest` with the stream flag true. -/
def allows (σ : Session) : StreamAction → Bool
  | StreamAction.request_tracker_start_stream _ =>
    decide (σ.stage.m_menuState ≠ eTrackerMenuState.pendingTrackerStopStreamRequest)
  | StreamAction.request_tracker_stop_stream _ =>
    decide (¬ (σ.stage.m_menuState = eTrackerMenuState.pendingTrackerStartStreamRequest ∧
      σ.stage.m_bStreamIsActive = true))
  | StreamAction.deliver _ _ _ => true

/-- Every action of the sequence is allowed in the session in which it is made. -/
def allowsAll (σ : Session) : List StreamAction → Bool
  | [] => true
  | action :: actions =>
    σ.allows action &&
      match σ.step action with
      | some σ1 => σ1.allowsAll actions
      | none => true

/-- Either no stream-lifecycle request is in flight, or exactly one is and the
menu state is the pending state of its kind. -/
def OnePending (σ : Session) : Prop :=
  (σ.inFlight.count Callback.handle_tracker_start_stream_response = 0 ∧
    σ.inFlight.count Callback.handle_tracker_stop_stream_response = 0) ∨
  (σ.inFlight.count Callback.handle_tracker_start_stream_response = 1 ∧
    σ.inFlight.count Callback.handle_tracker_stop_stream_response = 0 ∧
    σ.stage.m_menuState = eTrackerMenuState.pendingTrackerStartStreamRequest) ∨
  (σ.inFlight.count Callback.handle_tracker_start_stream_response = 0 ∧
    σ.inFlight.count Callback.handle_tracker_stop_stream_response = 1 ∧
    σ.stage.m_menuState = eTrackerMenuState.pendingTrackerStopStreamRequest)

end Session

/-- A response with the given outcome, every result part at its default. -/
def ResponseMessage.ofCode (result_code : eClientPSMoveResultCode) : ResponseMessage :=
  { result_code := result_code
    opaque_response_handle :=
      { result_set_tracker_exposure := { new_exposure := 0 }
        result_set_tracker_gain := { new_gain := 0 }
        result_set_tracker_option := { option_name := "", new_option_index := 0 }
        result_tracker_settings := { exposure := 0, gain := 0, option_sets := [] } } }

/-- A tracker view with a 640 x 480 video frame whose video stream opens. -/
def ClientTrackerView.example : ClientTrackerView :=
  { getTrackerId := 0
    openVideoStream := true
    getVideoFrameWidth := 640
    getVideoFrameHeight := 480 }

/-- A stop request, then a start request while the stop is pending. -/
def stopThenStart : List StreamAction :=
  [ StreamAction.request_tracker_start_stream 0,
    StreamAction.deliver Callback.handle_tracker_start_stream_response
      (ResponseMessage.ofCode eClientPSMoveResultCode._clientPSMoveResultCode_ok)
      ClientTrackerView.example,
    StreamAction.request_tracker_stop_stream 0,
    StreamAction.request_tracker_start_stream 0 ]

/-- The settings of the spec's example. -/
def settingsExample : ResponseMessage :=
  { result_code := eClientPSMoveResultCode._clientPSMoveResultCode_ok
    opaque_response_handle :=
      { result_set_tracker_exposure := { new_exposure := 0 }
        result_set_tracker_gain := { new_gain := 0 }
        result_set_tracker_option := { option_name := "", new_option_index := 0 }
        result_tracker_settings :=
          { exposure := 120
            gain := 30
            option_sets :=
              [{ option_name := "Sharpness"
                 option_index := 1
                 option_strings := ["Low", "Med", "High"] }] } } }

/-- A set-option response with outcome Ok carrying (name, new index). -/
def setOptionResponse (option_name : String) (new_option_index : Int) : ResponseMessage :=
  { result_code := eClientPSMoveResultCode._clientPSMoveResultCode_ok
    opaque_response_handle :=
      { result_set_tracker_exposure := { new_exposure := 0 }
        result_set_tracker_gain := { new_gain := 0 }
        result_set_tracker_option :=
          { option_name := option_name, new_option_index := new_option_index }
        result_tracker_settings := { exposure := 0, gain := 0, option_sets := [] } } }

/-- The stage after the get-settings response of the spec's example. -/
def settingsFetched : AppStage_ColorCalibration :=
  (AppStage_ColorCalibration.new.handle_tracker_get_settings_response settingsExample).1

/-- A get-settings response with outcome Ok whose one option set selects index 3
of three value strings. -/
def settingsPastTheEnd : ResponseMessage :=
  { result_code := eClientPSMoveResultCode._clientPSMoveResultCode_ok
    opaque_response_handle :=
      { result_set_tracker_exposure := { new_exposure := 0 }
        result_set_tracker_gain := { new_gain := 0 }
        result_set_tracker_option := { option_name := "", new_option_index := 0 }
        result_tracker_settings :=
          { exposure := 120
            gain := 30
            option_sets :=
              [{ option_name := "Sharpness"
                 option_index := 3
                 option_strings := ["Low", "Med", "High"] }] } } }

/-- An option with 2^30 + 1 value strings of which the last is selected. -/
def manyValues : TrackerOption :=
  { option_name := "Values"
    option_strings := List.replicate 1073741825 ""
    option_index := 1073741824 }

/-! ## Sequences of calls on the stage -/

/-- A call on the stage: `enter`, `exit`, `update`, one of the request
operations, or one of the six response handlers with a response of any outcome
and content.  The arguments are those of the embedded functions. -/
inductive StageAction where
  | enter (trackerInfo : ClientTrackerInfo) (allocated : Nat) (trackerView : ClientTrackerView)
  | exit
  | update (pollVideoStream : Bool)
  | request_tracker_start_stream (trackerID : Int)
  | request_tracker_stop_stream (trackerID : Int)
  | request_tracker_set_exposure (trackerID : Int) (value : ℚ)
  | request_tracker_set_gain (trackerID : Int) (value : ℚ)
  | request_tracker_set_option (trackerID : Int) (option : TrackerOption)
      (new_option_index : Int)
  | request_tracker_get_settings (trackerID : Int)
  | response (callback : Callback) (response : ResponseMessage)
      (trackerView : ClientTrackerView)
  deriving DecidableEq, Repr

/-- The stage and the calls made after one call on the stage. -/
def AppStage_ColorCalibration.perform (s : AppStage_ColorCalibration) :
    StageAction → AppStage_ColorCalibration × List Effect
  | StageAction.enter trackerInfo allocated trackerView =>
    s.enter trackerInfo allocated trackerView
  | StageAction.exit => s.exit
  | StageAction.update pollVideoStream => s.update pollVideoStream
  | StageAction.request_tracker_start_stream trackerID =>
    s.request_tracker_start_stream trackerID
  | StageAction.request_tracker_stop_stream trackerID =>
    s.request_tracker_stop_stream trackerID
  | StageAction.request_tracker_set_exposure trackerID value =>
    s.request_tracker_set_exposure trackerID value
  | StageAction.request_tracker_set_gain trackerID value =>
    s.request_tracker_set_gain trackerID value
  | StageAction.request_tracker_set_option trackerID option new_option_index =>
    s.request_tracker_set_option trackerID option new_option_index
  | StageAction.request_tracker_get_settings trackerID =>
    s.request_tracker_get_settings trackerID
  | StageAction.response callback response trackerView =>
    callback.call s response trackerView

/-- The stage after a sequence of calls, from left to right. -/
def AppStage_ColorCalibration.performAll (s : AppStage_ColorCalibration) :
    List StageAction → AppStage_ColorCalibration
  | [] => s
  | action :: actions => (s.perform action).1.performAll actions

/-- The stage is entered for tracker 0, the start response reports Ok and the
video stream opens, the stop is requested and the stop response reports Error. -/
def stopFails : List StageAction :=
  [ StageAction.enter { tracker_id := 0 } 1 ClientTrackerView.example,
    StageAction.response Callback.handle_tracker_start_stream_response
      (ResponseMessage.ofCode eClientPSMoveResultCode._clientPSMoveResultCode_ok)
      ClientTrackerView.example,
    StageAction.request_tracker_stop_stream 0,
    StageAction.response Callback.handle_tracker_stop_stream_response
      (ResponseMessage.ofCode eClientPSMoveResultCode._clientPSMoveResultCode_error)
      ClientTrackerView.example ]

/-! ## The device interface: `src/psmoveservice/Device/Interface/DeviceInterface.h` -/

/-- The struct `CommonDeviceRange`. -/
structure CommonDeviceRange where
  center : ℚ
  range : ℚ
  deriving DecidableEq, Repr

/-- The member function `CommonDeviceRange::clear`: `center = range = 0.f`
assigns `range` and then `center`. -/
def CommonDeviceRange.clear (r : CommonDeviceRange) : CommonDeviceRange :=
  let r1 := { r with range := 0 }
  { r1 with center := r1.range }

/-- The struct `CommonHSVColorRange`. -/
structure CommonHSVColorRange where
  hue_range : CommonDeviceRange
  saturation_range : CommonDeviceRange
  value_range : CommonDeviceRange
  deriving DecidableEq, Repr

/-- The member function `CommonHSVColorRange::clear`. -/
def CommonHSVColorRange.clear (c : CommonHSVColorRange) : CommonHSVColorRange :=
  let c1 := { c with hue_range := c.hue_range.clear }
  let c2 := { c1 with saturation_range := c1.saturation_range.clear }
  { c2 with value_range := c2.value_range.clear }

/-- The struct `CommonDevicePosition`. -/
structure CommonDevicePosition where
  x : ℚ
  y : ℚ
  z : ℚ
  deriving DecidableEq, Repr

/-- The member function `CommonDevicePosition::clear`: `x = y = z = 0.f`. -/
def CommonDevicePosition.clear (p : CommonDevicePosition) : CommonDevicePosition :=
  let p1 := { p with z := 0 }
  let p2 := { p1 with y := p1.z }
  { p2 with x := p2.y }

/-- The struct `CommonDeviceQuaternion`. -/
structure CommonDeviceQuaternion where
  x : ℚ
  y : ℚ
  z : ℚ
  w : ℚ
  deriving DecidableEq, Repr

/-- The member function `CommonDeviceQuaternion::clear`: `x = y = z = 0.f` and
then `w = 1.f`. -/
def CommonDeviceQuaternion.clear (q : CommonDeviceQuaternion) : CommonDeviceQuaternion :=
  let q1 := { q with z := 0 }
  let q2 := { q1 with y := q1.z }
  let q3 := { q2 with x := q2.y }
  { q3 with w := 1 }

/-- The struct `CommonDevicePose`. -/
structure CommonDevicePose where
  PositionCm : CommonDevicePosition
  Orientation : CommonDeviceQuaternion
  deriving DecidableEq, Repr

/-- The member function `CommonDevicePose::clear`. -/
def CommonDevicePose.clear (p : CommonDevicePose) : CommonDevicePose :=
  let p1 := { p with PositionCm := p.PositionCm.clear }
  { p1 with Orientation := p1.Orientation.clear }

/-- The struct `CommonDistortionCoefficients`. -/
structure CommonDistortionCoefficients where
  k1 : ℚ
  k2 : ℚ
  k3 : ℚ
  p1 : ℚ
  p2 : ℚ
  deriving DecidableEq, Repr

/-- The struct `CommonMonoTrackerIntrinsics`, its members in the order of their
declaration; a `std::array<double, N>` is a function on `Fin N`. -/
structure CommonMonoTrackerIntrinsics where
  pixel_width : ℚ
  pixel_height : ℚ
  hfov : ℚ
  vfov : ℚ
  znear : ℚ
  zfar : ℚ
  distortion_coefficients : CommonDistortionCoefficients
  camera_matrix : Fin 9 → ℚ

/-- The struct `CommonStereoTrackerIntrinsics`, its members in the order of
their declaration. -/
structure CommonStereoTrackerIntrinsics where
  pixel_width : ℚ
  pixel_height : ℚ
  hfov : ℚ
  vfov : ℚ
  znear : ℚ
  zfar : ℚ
  left_distortion_coefficients : CommonDistortionCoefficients
  left_camera_matrix : Fin 9 → ℚ
  right_distortion_coefficients : CommonDistortionCoefficients
  right_camera_matrix : Fin 9 → ℚ
  left_rectification_rotation : Fin 9 → ℚ
  right_rectification_rotation : Fin 9 → ℚ
  left_rectification_projection : Fin 12 → ℚ
  right_rectification_projection : Fin 12 → ℚ
  rotation_between_cameras : Fin 9 → ℚ
  translation_between_cameras : Fin 3 → ℚ
  essential_matrix : Fin 9 → ℚ
  fundamental_matrix : Fin 9 → ℚ
  reprojection_matrix : Fin 16 → ℚ

/-- A scalar member of a struct with its declared type. -/
inductive ScalarMember where
  | float (value : ℚ)
  | double (value : ℚ)
  deriving DecidableEq, Repr

/-- The declared type of a scalar member. -/
inductive ScalarType where
  | float
  | double
  deriving DecidableEq, Repr

/-- The declared type of a scalar member. -/
def ScalarMember.type : ScalarMember → ScalarType
  | ScalarMember.float _ => ScalarType.float
  | ScalarMember.double _ => ScalarType.double

/-- The elements of a `std::array<double, N>`, in order. -/
def array_members {n : Nat} (a : Fin n → ℚ) : List ScalarMember :=
  (List.ofFn a).map ScalarMember.double

/-- The scalar members of a `CommonDistortionCoefficients`, in the order of
their declaration. -/
def CommonDistortionCoefficients.members (d : CommonDistortionCoefficients) :
    List ScalarMember :=
  [ScalarMember.double d.k1, ScalarMember.double d.k2, ScalarMember.double d.k3,
   ScalarMember.double d.p1, ScalarMember.double d.p2]

/-- The scalar members of a `CommonMonoTrackerIntrinsics`, in the order of their
declaration. -/
def CommonMonoTrackerIntrinsics.members (m : CommonMonoTrackerIntrinsics) :
    List ScalarMember :=
  [ScalarMember.float m.pixel_width, ScalarMember.float m.pixel_height,
   ScalarMember.float m.hfov, ScalarMember.float m.vfov,
   ScalarMember.float m.znear, ScalarMember.float m.zfar] ++
    m.distortion_coefficients.members ++ array_members m.camera_matrix

/-- The scalar members of a `CommonStereoTrackerIntrinsics`, in the order of
their declaration. -/
def CommonStereoTrackerIntrinsics.members (st : CommonStereoTrackerIntrinsics) :
    List ScalarMember :=
  [ScalarMember.float st.pixel_width, ScalarMember.float st.pixel_height,
   ScalarMember.float st.hfov, ScalarMember.float st.vfov,
   ScalarMember.float st.znear, ScalarMember.float st.zfar] ++
    st.left_distortion_coefficients.members ++ array_members st.left_camera_matrix ++
    st.right_distortion_coefficients.members ++ array_members st.right_camera_matrix ++
    array_members st.left_rectification_rotation ++
    array_members st.right_rectification_rotation ++
    array_members st.left_rectification_projection ++
    array_members st.right_rectification_projection ++
    array_members st.rotation_between_cameras ++
    array_members st.translation_between_cameras ++
    array_members st.essential_matrix ++
    array_members st.fundamental_matrix ++
    array_members st.reprojection_matrix

/-- Reading a `std::array<double, N>` from the front of a sequence of scalar
members: `N` members of type `double`; what follows them is returned too. -/
def read_array : (n : Nat) → List ScalarMember → Option ((Fin n → ℚ) × List ScalarMember)
  | 0, rest => some (fun i => i.elim0, rest)
  | n + 1, ScalarMember.double value :: rest =>
    match read_array n rest with
    | some (a, rest1) => some (Fin.cons value a, rest1)
    | none => none
  | _ + 1, _ => none

/-- Reading a `CommonMonoTrackerIntrinsics` from the front of a sequence of
scalar members: each member of the struct, in the order of its declaration,
from a scalar member of its declared type. -/
def CommonMonoTrackerIntrinsics.read : List ScalarMember → Option CommonMonoTrackerIntrinsics
  | ScalarMember.float pixel_width :: ScalarMember.float pixel_height ::
    ScalarMember.float hfov :: ScalarMember.float vfov ::
    ScalarMember.float znear :: ScalarMember.float zfar ::
    ScalarMember.double k1 :: ScalarMember.double k2 :: ScalarMember.double k3 ::
    ScalarMember.double p1 :: ScalarMember.double p2 :: rest =>
    match read_array 9 rest with
    | some (camera_matrix, _) =>
      some
        { pixel_width := pixel_width
          pixel_height := pixel_height
          hfov := hfov
          vfov := vfov
          znear := znear
          zfar := zfar
          distortion_coefficients := { k1 := k1, k2 := k2, k3 := k3, p1 := p1, p2 := p2 }
          camera_matrix := camera_matrix }
    | none => none
  | _ => none

/-- The enumeration `CommonTrackerIntrinsics::eTrackerIntrinsicsType`. -/
inductive eTrackerIntrinsicsType where
  | MONO_TRACKER_INTRINSICS
  | STEREO_TRACKER_INTRINSICS
  deriving DecidableEq, Repr

/-- The struct `CommonTrackerIntrinsics`.  The anonymous union of
`mono_intrinsics` and `stereo_intrinsics` is held as the scalar members of the
alternative that was written, in the order of their declaration (padding is not
represented: it is the same for the same sequence of member types). -/
structure CommonTrackerIntrinsics where
  storage : List ScalarMember
  intrinsics_type : eTrackerIntrinsicsType

/-- A `CommonTrackerIntrinsics` whose `stereo_intrinsics` was written. -/
def CommonTrackerIntrinsics.ofStereo (st : CommonStereoTrackerIntrinsics) :
    CommonTrackerIntrinsics :=
  { storage := st.members
    intrinsics_type := eTrackerIntrinsicsType.STEREO_TRACKER_INTRINSICS }

/-- A `CommonTrackerIntrinsics` whose `mono_intrinsics` was written. -/
def CommonTrackerIntrinsics.ofMono (m : CommonMonoTrackerIntrinsics) :
    CommonTrackerIntrinsics :=
  { storage := m.members
    intrinsics_type := eTrackerIntrinsicsType.MONO_TRACKER_INTRINSICS }

/-- Reading the member `mono_intrinsics` of the union; `none` when the storage
does not begin with the members of a `CommonMonoTrackerIntrinsics`. -/
def CommonTrackerIntrinsics.mono_intrinsics (u : CommonTrackerIntrinsics) :
    Option CommonMonoTrackerIntrinsics :=
  CommonMonoTrackerIntrinsics.read u.storage

/-- Following the words of the spec ("an equivalently configured
`CameraIntrinsics::Mono`"): the mono intrinsics configured with the pixel size,
field of view, clip range, left distortion and left camera matrix of the stereo
intrinsics. -/
def CommonStereoTrackerIntrinsics.equivalentMono (st : CommonStereoTrackerIntrinsics) :
    CommonMonoTrackerIntrinsics :=
  { pixel_width := st.pixel_width
    pixel_height := st.pixel_height
    hfov := st.hfov
    vfov := st.vfov
    znear := st.znear
    zfar := st.zfar
    distortion_coefficients := st.left_distortion_coefficients
    camera_matrix := st.left_camera_matrix }

/-- The member function `CommonMonoTrackerIntrinsics::init_camera_matrix`: the
nine assignments `camera_matrix[i] = ...`, in the order of the source (`0.f` and
`1.f` are exactly 0 and 1 as `double`). -/
def CommonMonoTrackerIntrinsics.init_camera_matrix (m : CommonMonoTrackerIntrinsics)
    (F_PX F_PY PrincipalX PrincipalY : ℚ) : CommonMonoTrackerIntrinsics :=
  let m0 := { m with camera_matrix := Function.update m.camera_matrix 0 F_PX }
  let m1 := { m0 with camera_matrix := Function.update m0.camera_matrix 1 0 }
  let m2 := { m1 with camera_matrix := Function.update m1.camera_matrix 2 PrincipalX }
  let m3 := { m2 with camera_matrix := Function.update m2.camera_matrix 3 0 }
  let m4 := { m3 with camera_matrix := Function.update m3.camera_matrix 4 F_PY }
  let m5 := { m4 with camera_matrix := Function.update m4.camera_matrix 5 PrincipalY }
  let m6 := { m5 with camera_matrix := Function.update m5.camera_matrix 6 0 }
  let m7 := { m6 with camera_matrix := Function.update m6.camera_matrix 7 0 }
  { m7 with camera_matrix := Function.update m7.camera_matrix 8 1 }

/-- A mono intrinsics of 640 x 480 pixels whose camera matrix holds 7 in every
entry. -/
def monoExample : CommonMonoTrackerIntrinsics :=
  { pixel_width := 640
    pixel_height := 480
    hfov := 60
    vfov := 45
    znear := 10
    zfar := 200
    distortion_coefficients := { k1 := 0, k2 := 0, k3 := 0, p1 := 0, p2 := 0 }
    camera_matrix := fun _ => 7 }

/-! ## Theorems -/

namespace AppStage_ColorCalibration

open eTrackerMenuState eClientPSMoveResultCode

/-- C1: a repeated stream-lifecycle request of the kind that is already pending
is a no-op.  In menu state `pendingTrackerStartStreamRequest` the start request
returns the stage unchanged and makes no call (no start request, no callback
registered); in menu state `pendingTrackerStopStreamRequest` the stop request
returns the stage unchanged and makes no call. -/
theorem repeated_pending_request_is_noop :
    (∀ (s : AppStage_ColorCalibration) (trackerID : Int),
        s.m_menuState = pendingTrackerStartStreamRequest →
        s.request_tracker_start_stream trackerID = (s, [])) ∧
    (∀ (s : AppStage_ColorCalibration) (trackerID : Int),
        s.m_menuState = pendingTrackerStopStreamRequest →
        s.request_tracker_stop_stream trackerID = (s, [])) := by
  constructor
  · intro s trackerID h
    simp [request_tracker_start_stream, h]
  · intro s trackerID h
    simp [request_tracker_stop_stream, h]

/-- A second start request while the first is pending, and a second stop request
while the stream is active and the first stop is pending, change nothing and make
no call. -/
theorem repeated_pending_request_is_noop_witness :
    ({ new with m_menuState := pendingTrackerStartStreamRequest }
        : AppStage_ColorCalibration).request_tracker_start_stream 0 =
      ({ new with m_menuState := pendingTrackerStartStreamRequest }, []) ∧
    ({ new with m_bStreamIsActive := true, m_menuState := pendingTrackerStopStreamRequest }
        : AppStage_ColorCalibration).request_tracker_stop_stream 0 =
      ({ new with m_bStreamIsActive := true, m_menuState := pendingTrackerStopStreamRequest },
        []) :=
  ⟨repeated_pending_request_is_noop.1 _ 0 rfl, repeated_pending_request_is_noop.2 _ 0 rfl⟩

end AppStage_ColorCalibration

namespace Session

open eTrackerMenuState eClientPSMoveResultCode AppStage_ColorCalibration

/-- No handler registers the callback of a start or stop request. -/
theorem call_registers_no_stream_callback (callback : Callback)
    (s : AppStage_ColorCalibration) (response : ResponseMessage)
    (trackerView : ClientTrackerView) :
    (registered (callback.call s response trackerView).2).count
        Callback.handle_tracker_start_stream_response = 0 ∧
    (registered (callback.call s response trackerView).2).count
        Callback.handle_tracker_stop_stream_response = 0 := by
  obtain ⟨rc, payload⟩ := response
  cases callback <;> cases rc <;> cases hopen : trackerView.openVideoStream <;>
    cases htex : s.m_videoTexture <;>
    simp [Callback.call, handle_tracker_start_stream_response,
      handle_tracker_stop_stream_response, handle_tracker_set_exposure_response,
      handle_tracker_set_gain_response, handle_tracker_set_option_response,
      handle_tracker_get_settings_response, request_tracker_get_settings,
      registered, Effect.registers, hopen, htex] <;>
    split <;> simp

/-- The handlers of the calibration responses leave the menu state as it is. -/
theorem call_keeps_menuState (callback : Callback)
    (s : AppStage_ColorCalibration) (response : ResponseMessage)
    (trackerView : ClientTrackerView)
    (hstart : callback ≠ Callback.handle_tracker_start_stream_response)
    (hstop : callback ≠ Callback.handle_tracker_stop_stream_response) :
    (callback.call s response trackerView).1.m_menuState = s.m_menuState := by
  obtain ⟨rc, payload⟩ := response
  cases callback <;> cases rc <;>
    simp [Callback.call, handle_tracker_set_exposure_response,
      handle_tracker_set_gain_response, handle_tracker_set_option_response,
      handle_tracker_get_settings_response] at hstart hstop ⊢
  split <;> simp

theorem onePending_step (σ σ1 : Session) (action : StreamAction)
    (hinv : σ.OnePending) (hallow : σ.allows action = true)
    (hstep : σ.step action = some σ1) : σ1.OnePending := by
  obtain ⟨stage, inFlight⟩ := σ
  cases action with
  | request_tracker_start_stream trackerID =>
    simp only [step, Option.some.injEq] at hstep
    subst hstep
    simp only [allows, decide_eq_true_eq] at hallow
    by_cases hm : stage.m_menuState = pendingTrackerStartStreamRequest
    · simpa [OnePending, request_tracker_start_stream, hm, registered] using hinv
    · simp [OnePending, request_tracker_start_stream, hm, registered, Effect.registers,
        List.count_append] at hinv ⊢
      simp_all
  | request_tracker_stop_stream trackerID =>
    simp only [step, Option.some.injEq] at hstep
    subst hstep
    simp only [allows, decide_eq_true_eq] at hallow
    by_cases hm : stage.m_bStreamIsActive = true ∧
        stage.m_menuState ≠ pendingTrackerStopStreamRequest
    · simp [OnePending, request_tracker_stop_stream, hm, registered, Effect.registers,
        List.count_append] at hinv ⊢
      simp_all
    · simpa [OnePending, request_tracker_stop_stream, hm, registered] using hinv
  | deliver callback response trackerView =>
    simp only [step] at hstep
    split at hstep
    · rename_i hmem
      simp only [Option.some.injEq] at hstep
      subst hstep
      have hpos := List.count_pos_iff.mpr hmem
      obtain ⟨hr1, hr2⟩ := call_registers_no_stream_callback callback stage response trackerView
      by_cases hstart : callback = Callback.handle_tracker_start_stream_response
      · subst hstart
        simp only [OnePending, List.count_append, hr1, hr2, List.count_erase_self,
          ne_eq, reduceCtorEq, not_false_eq_true, List.count_erase_of_ne] at hinv hpos ⊢
        omega
      · by_cases hstop : callback = Callback.handle_tracker_stop_stream_response
        · subst hstop
          simp only [OnePending, List.count_append, hr1, hr2, List.count_erase_self,
            ne_eq, reduceCtorEq, not_false_eq_true, List.count_erase_of_ne] at hinv hpos ⊢
          omega
        · have hmenu := call_keeps_menuState callback stage response trackerView hstart hstop
          simp only [OnePending, List.count_append, hr1, hr2, hmenu, ne_eq,
            Ne.symm hstart, Ne.symm hstop, not_false_eq_true, List.count_erase_of_ne,
            hstart, hstop] at hinv ⊢
          simpa using hinv
    · simp at hstep

/-- The invariant `OnePending` holds along every sequence of allowed actions. -/
theorem onePending_run (actions : List StreamAction) :
    ∀ (σ σ1 : Session), σ.OnePending → σ.allowsAll actions = true →
      σ.run actions = some σ1 → σ1.OnePending := by
  induction actions with
  | nil =>
    intro σ σ1 hinv _ hrun
    simp only [run, Option.some.injEq] at hrun
    exact hrun ▸ hinv
  | cons action actions ih =>
    intro σ σ1 hinv hallow hrun
    simp only [allowsAll, Bool.and_eq_true] at hallow
    simp only [run] at hrun
    cases hstep : σ.step action with
    | none => simp [hstep] at hrun
    | some σ2 =>
      simp only [hstep] at hrun hallow
      exact ih σ2 σ1 (onePending_step σ σ2 action hinv hallow.1 hstep) hallow.2 hrun

/-- C2, as the code has it: in every session reached from the freshly
constructed stage by start requests, stop requests and deliveries of responses to
requests in flight, in which no start is requested in menu state
`pendingTrackerStopStreamRequest` and no stop is requested in menu state
`pendingTrackerStartStreamRequest` with the stream flag true, at most one
stream-lifecycle request (a start or a stop) is in flight. -/
theorem at_most_one_stream_request_in_flight (actions : List StreamAction) (σ : Session)
    (hallow : fresh.allowsAll actions = true) (hrun : fresh.run actions = some σ) :
    σ.streamRequestsInFlight ≤ 1 := by
  have h : fresh.OnePending := by
    simp [OnePending, fresh]
  have h1 := onePending_run actions fresh σ h hallow hrun
  unfold OnePending at h1
  unfold streamRequestsInFlight
  omega

/-- A start request, its response Ok with the video stream opening, then a stop
request: the actions are allowed, and the stop request is the one
stream-lifecycle request in flight (next to the settings request). -/
theorem at_most_one_stream_request_in_flight_witness :
    fresh.allowsAll stopThenStart.dropLast = true ∧
    fresh.run stopThenStart.dropLast = some
      { stage :=
          { m_menuState := pendingTrackerStopStreamRequest
            m_bStreamIsActive := true
            m_trackerView := none
            m_videoTexture := some { width := 640, height := 480 }
            m_videoDisplayMode := eVideoDisplayMode.mode_bgr
            m_trackerExposure := 0
            m_trackerGain := 0
            m_trackerOptions := [] }
        inFlight := [Callback.handle_tracker_get_settings_response,
          Callback.handle_tracker_stop_stream_response] } ∧
    Session.streamRequestsInFlight
      { stage :=
          { m_menuState := pendingTrackerStopStreamRequest
            m_bStreamIsActive := true
            m_trackerView := none
            m_videoTexture := some { width := 640, height := 480 }
            m_videoDisplayMode := eVideoDisplayMode.mode_bgr
            m_trackerExposure := 0
            m_trackerGain := 0
            m_trackerOptions := [] }
        inFlight := [Callback.handle_tracker_get_settings_response,
          Callback.handle_tracker_stop_stream_response] } ≤ 1 :=
  ⟨by decide, by decide,
    at_most_one_stream_request_in_flight stopThenStart.dropLast _ (by decide) (by decide)⟩

/-- C2, as the claim states it, fails: after a start request, its response Ok and
a stop request, a start request is not refused while the stop is pending, and two
stream-lifecycle requests are in flight.  The same holds when the tracker view of
the stage has been allocated. -/
theorem two_stream_requests_in_flight :
    (fresh.run stopThenStart).map streamRequestsInFlight = some 2 ∧
    (Session.run
        { stage := { AppStage_ColorCalibration.new with m_trackerView := some 1 }
          inFlight := [] } stopThenStart).map streamRequestsInFlight = some 2 ∧
    ¬ ∀ (actions : List StreamAction) (σ : Session),
        fresh.run actions = some σ → σ.streamRequestsInFlight ≤ 1 := by
  refine ⟨by decide, by decide, fun h => ?_⟩
  cases hrun : fresh.run stopThenStart with
  | none => exact absurd hrun (by decide)
  | some σ =>
    have h2 : (fresh.run stopThenStart).map streamRequestsInFlight = some 2 := by decide
    have h1 := h stopThenStart σ hrun
    rw [hrun] at h2
    simp only [Option.map_some', Option.some.injEq] at h2
    omega

end Session

namespace AppStage_ColorCalibration

open eTrackerMenuState eClientPSMoveResultCode

/-- A call of `update` leaves the member variables as they are. -/
theorem update_fst (s : AppStage_ColorCalibration) (pollVideoStream : Bool) :
    (s.update pollVideoStream).1 = s := by
  unfold update
  split
  · split <;> rfl
  · rfl

/-- Any number of calls of `update` leaves the member variables as they are. -/
theorem updateTicks_eq (s : AppStage_ColorCalibration) (poll : Nat → Bool) (n : Nat) :
    s.updateTicks poll n = s := by
  induction n with
  | zero => rfl
  | succ n ih => simp [updateTicks, ih, update_fst]

/-- C3: from a stage with an inactive stream and no display buffer, the trace
[start request, start response Ok, n update ticks, stop request, stop response
Ok] ends with menu state inactive, the stream flag false and no display buffer,
for every n, every outcome of each tick's poll and whether or not the video
stream opened on start.  Before the stop the stream is active with menu state
idle, a display buffer exists exactly when the video stream opened, and the stop
request of the trace is sent. -/
theorem start_then_stop_leaves_inactive (s : AppStage_ColorCalibration) (trackerID : Int)
    (startResponse stopResponse : ResponseMessage) (trackerView : ClientTrackerView)
    (n : Nat) (poll : Nat → Bool)
    (_hstream : s.m_bStreamIsActive = false) (hbuffer : s.m_videoTexture = none)
    (hstart : startResponse.result_code = _clientPSMoveResultCode_ok)
    (hstop : stopResponse.result_code = _clientPSMoveResultCode_ok) :
    ((s.startUpdate trackerID startResponse trackerView n poll).m_bStreamIsActive = true ∧
      (s.startUpdate trackerID startResponse trackerView n poll).m_menuState = idle ∧
      ((s.startUpdate trackerID startResponse trackerView n poll).m_videoTexture ≠ none ↔
        trackerView.openVideoStream = true) ∧
      ((s.startUpdate trackerID startResponse trackerView n poll).request_tracker_stop_stream
          trackerID).2 =
        [Effect.stop_tracker_data_stream s.m_trackerView,
         Effect.register_callback Callback.handle_tracker_stop_stream_response]) ∧
    (s.startUpdateStop trackerID startResponse trackerView n poll stopResponse).m_menuState
        = inactive ∧
    (s.startUpdateStop trackerID startResponse trackerView n poll
        stopResponse).m_bStreamIsActive = false ∧
    (s.startUpdateStop trackerID startResponse trackerView n poll
        stopResponse).m_videoTexture = none := by
  have hactive : s.startUpdate trackerID startResponse trackerView n poll =
      { (s.request_tracker_start_stream trackerID).1 with
        m_bStreamIsActive := true
        m_menuState := idle
        m_videoTexture :=
          if trackerView.openVideoStream then
            some { width := trackerView.getVideoFrameWidth
                   height := trackerView.getVideoFrameHeight }
          else none } := by
    have hb : (s.request_tracker_start_stream trackerID).1.m_videoTexture = none := by
      unfold request_tracker_start_stream
      split <;> simpa using hbuffer
    simp only [startUpdate, updateTicks_eq, handle_tracker_start_stream_response, hstart,
      request_tracker_get_settings]
    cases trackerView.openVideoStream <;> simp [hb]
  have hview : (s.request_tracker_start_stream trackerID).1.m_trackerView = s.m_trackerView := by
    unfold request_tracker_start_stream
    split <;> rfl
  refine ⟨⟨?_, ?_, ?_, ?_⟩, ?_, ?_, ?_⟩
  · rw [hactive]
  · rw [hactive]
  · rw [hactive]
    cases trackerView.openVideoStream <;> simp
  · rw [hactive]
    simp [request_tracker_stop_stream, hview]
  · simp only [startUpdateStop, handle_tracker_stop_stream_response, hstop]
    split <;> rfl
  · simp only [startUpdateStop, handle_tracker_stop_stream_response, hstop]
    split <;> rfl
  · simp only [startUpdateStop, handle_tracker_stop_stream_response, hstop]
    split <;> simp_all

/-- The trace of C3 with three update ticks, of which the second finds no new
frame, from the freshly constructed stage. -/
theorem start_then_stop_leaves_inactive_witness :
    (new.startUpdateStop 0 (ResponseMessage.ofCode _clientPSMoveResultCode_ok)
        ClientTrackerView.example 3 (fun i => decide (i ≠ 1))
        (ResponseMessage.ofCode _clientPSMoveResultCode_ok)).m_menuState = inactive ∧
    (new.startUpdateStop 0 (ResponseMessage.ofCode _clientPSMoveResultCode_ok)
        ClientTrackerView.example 3 (fun i => decide (i ≠ 1))
        (ResponseMessage.ofCode _clientPSMoveResultCode_ok)).m_bStreamIsActive = false ∧
    (new.startUpdateStop 0 (ResponseMessage.ofCode _clientPSMoveResultCode_ok)
        ClientTrackerView.example 3 (fun i => decide (i ≠ 1))
        (ResponseMessage.ofCode _clientPSMoveResultCode_ok)).m_videoTexture = none :=
  (start_then_stop_leaves_inactive new 0 (ResponseMessage.ofCode _clientPSMoveResultCode_ok)
    (ResponseMessage.ofCode _clientPSMoveResultCode_ok) ClientTrackerView.example 3
    (fun i => decide (i ≠ 1)) (by decide) (by decide) (by decide) (by decide)).2

/-- C4: a start-stream response with outcome Ok sets the stream flag and the
menu state idle and makes its calls in this order: the video stream of the
tracker view is opened; if and only if it opened, a display buffer of exactly the
tracker view's video frame width and height is created; one get-settings request
for the tracker view's tracker id is sent and its callback registered.  When the
video stream does not open no buffer is created (`m_videoTexture` stays as it
was) and the get-settings request is sent all the same. -/
theorem start_response_ok (s : AppStage_ColorCalibration) (response : ResponseMessage)
    (trackerView : ClientTrackerView)
    (hok : response.result_code = _clientPSMoveResultCode_ok) :
    (s.handle_tracker_start_stream_response response trackerView).1.m_bStreamIsActive = true ∧
    (s.handle_tracker_start_stream_response response trackerView).1.m_menuState = idle ∧
    (trackerView.openVideoStream = true →
      s.handle_tracker_start_stream_response response trackerView =
        ({ s with
            m_bStreamIsActive := true
            m_menuState := idle
            m_videoTexture := some { width := trackerView.getVideoFrameWidth
                                     height := trackerView.getVideoFrameHeight } },
         [Effect.openVideoStream,
          Effect.new_TextureAsset_init trackerView.getVideoFrameWidth
            trackerView.getVideoFrameHeight,
          Effect.send_opaque_request (Request.GET_TRACKER_SETTINGS trackerView.getTrackerId),
          Effect.register_callback Callback.handle_tracker_get_settings_response])) ∧
    (trackerView.openVideoStream = false →
      s.handle_tracker_start_stream_response response trackerView =
        ({ s with m_bStreamIsActive := true, m_menuState := idle },
         [Effect.openVideoStream,
          Effect.send_opaque_request (Request.GET_TRACKER_SETTINGS trackerView.getTrackerId),
          Effect.register_callback Callback.handle_tracker_get_settings_response])) := by
  simp only [handle_tracker_start_stream_response, hok, request_tracker_get_settings]
  cases trackerView.openVideoStream <;> simp

/-- The start response Ok on the freshly constructed stage, with a tracker view of
640 x 480 whose video stream opens. -/
theorem start_response_ok_witness :
    new.handle_tracker_start_stream_response
        (ResponseMessage.ofCode _clientPSMoveResultCode_ok) ClientTrackerView.example =
      ({ new with
          m_bStreamIsActive := true
          m_menuState := idle
          m_videoTexture := some { width := 640, height := 480 } },
       [Effect.openVideoStream,
        Effect.new_TextureAsset_init 640 480,
        Effect.send_opaque_request (Request.GET_TRACKER_SETTINGS 0),
        Effect.register_callback Callback.handle_tracker_get_settings_response]) :=
  (start_response_ok new (ResponseMessage.ofCode _clientPSMoveResultCode_ok)
    ClientTrackerView.example (by decide)).2.2.1 (by decide)

/-- C5: for every stage and every outcome the stop-stream response leaves the
stream flag false.  With outcome Ok it sets the menu state inactive, closes the
video stream, deletes the display buffer when there is one (`m_videoTexture`
becomes null) and asks for the tracker-settings stage, in this order; with
outcome Error or Canceled it sets the menu state
`failedTrackerStopStreamRequest` and makes no call. -/
theorem stop_response (s : AppStage_ColorCalibration) (response : ResponseMessage) :
    (s.handle_tracker_stop_stream_response response).1.m_bStreamIsActive = false ∧
    (response.result_code = _clientPSMoveResultCode_ok →
      (s.handle_tracker_stop_stream_response response).1 =
        { s with m_bStreamIsActive := false, m_menuState := inactive, m_videoTexture := none } ∧
      (s.handle_tracker_stop_stream_response response).2 =
        [Effect.closeVideoStream] ++
          (if s.m_videoTexture ≠ none then [Effect.delete_TextureAsset] else []) ++
          [Effect.setAppStage AppStageName.AppStage_TrackerSettings]) ∧
    (response.result_code = _clientPSMoveResultCode_error ∨
        response.result_code = _clientPSMoveResultCode_canceled →
      s.handle_tracker_stop_stream_response response =
        ({ s with m_bStreamIsActive := false, m_menuState := failedTrackerStopStreamRequest },
         [])) := by
  obtain ⟨rc, payload⟩ := response
  cases rc <;> cases htex : s.m_videoTexture <;>
    simp [handle_tracker_stop_stream_response, htex]

/-- The stop response Ok on a streaming stage with a display buffer, and the stop
response Canceled on the same stage. -/
theorem stop_response_witness :
    (({ new with
          m_menuState := pendingTrackerStopStreamRequest
          m_bStreamIsActive := true
          m_videoTexture := some { width := 640, height := 480 } }
        : AppStage_ColorCalibration).handle_tracker_stop_stream_response
        (ResponseMessage.ofCode _clientPSMoveResultCode_ok)).1 = new ∧
    (({ new with
          m_menuState := pendingTrackerStopStreamRequest
          m_bStreamIsActive := true
          m_videoTexture := some { width := 640, height := 480 } }
        : AppStage_ColorCalibration).handle_tracker_stop_stream_response
        (ResponseMessage.ofCode _clientPSMoveResultCode_ok)).2 =
      [Effect.closeVideoStream, Effect.delete_TextureAsset,
       Effect.setAppStage AppStageName.AppStage_TrackerSettings] ∧
    ({ new with
          m_menuState := pendingTrackerStopStreamRequest
          m_bStreamIsActive := true
          m_videoTexture := some { width := 640, height := 480 } }
        : AppStage_ColorCalibration).handle_tracker_stop_stream_response
        (ResponseMessage.ofCode _clientPSMoveResultCode_canceled) =
      ({ new with
          m_menuState := failedTrackerStopStreamRequest
          m_videoTexture := some { width := 640, height := 480 } }, []) :=
  ⟨((stop_response _ (ResponseMessage.ofCode _clientPSMoveResultCode_ok)).2.1 rfl).1,
    ((stop_response _ (ResponseMessage.ofCode _clientPSMoveResultCode_ok)).2.1 rfl).2,
    (stop_response _ (ResponseMessage.ofCode _clientPSMoveResultCode_canceled)).2.2
      (Or.inr rfl)⟩

/-- Pushing the image of each element back, one by one, appends the mapped list. -/
theorem foldl_push_back {α β : Type} (f : α → β) (l : List α) :
    ∀ init : List β, l.foldl (fun pushed x => pushed ++ [f x]) init = init ++ l.map f := by
  induction l with
  | nil => intro init; simp
  | cons x xs ih => intro init; simp [ih]

/-- The option built in the loop has the name, the value strings in order and the
selected index of the option set it is built from. -/
theorem destOption_eq (srcOption : OptionSet) :
    destOption srcOption =
      { option_name := srcOption.option_name
        option_strings := srcOption.option_strings
        option_index := srcOption.option_index } := by
  have h := foldl_push_back (fun x : String => x) srcOption.option_strings []
  simp only [List.map_id', List.nil_append] at h
  simp [destOption, h]

/-- C6: after a get-settings response with outcome Ok the local exposure and gain
are those of the response and the local option list is the list of the response's
option sets in the same order: the same length, entry by entry the same name, the
same value strings in order and the same selected index.  The list does not
depend on the prior option list (on any prior local state): a full replace. -/
theorem get_settings_response_ok (s : AppStage_ColorCalibration) (response : ResponseMessage)
    (hok : response.result_code = _clientPSMoveResultCode_ok) :
    (s.handle_tracker_get_settings_response response).1.m_trackerExposure =
      response.opaque_response_handle.result_tracker_settings.exposure ∧
    (s.handle_tracker_get_settings_response response).1.m_trackerGain =
      response.opaque_response_handle.result_tracker_settings.gain ∧
    (s.handle_tracker_get_settings_response response).1.m_trackerOptions =
      response.opaque_response_handle.result_tracker_settings.option_sets.map
        (fun srcOption =>
          { option_name := srcOption.option_name
            option_strings := srcOption.option_strings
            option_index := srcOption.option_index }) ∧
    (s.handle_tracker_get_settings_response response).1.m_trackerOptions.length =
      response.opaque_response_handle.result_tracker_settings.option_sets.length ∧
    (∀ (i : Nat) (srcOption : OptionSet),
      response.opaque_response_handle.result_tracker_settings.option_sets[i]? =
        some srcOption →
      ∃ option, (s.handle_tracker_get_settings_response response).1.m_trackerOptions[i]? =
          some option ∧
        option.option_name = srcOption.option_name ∧
        option.option_strings = srcOption.option_strings ∧
        option.option_index = srcOption.option_index) ∧
    (∀ prior : AppStage_ColorCalibration,
      (prior.handle_tracker_get_settings_response response).1.m_trackerOptions =
        (s.handle_tracker_get_settings_response response).1.m_trackerOptions) := by
  have hopts : ∀ prior : AppStage_ColorCalibration,
      (prior.handle_tracker_get_settings_response response).1.m_trackerOptions =
        response.opaque_response_handle.result_tracker_settings.option_sets.map
          (fun srcOption =>
            { option_name := srcOption.option_name
              option_strings := srcOption.option_strings
              option_index := srcOption.option_index }) := by
    intro prior
    simp only [handle_tracker_get_settings_response, hok, foldl_push_back, List.nil_append]
    exact List.map_congr_left (fun srcOption _ => destOption_eq srcOption)
  refine ⟨?_, ?_, hopts s, ?_, ?_, ?_⟩
  · simp [handle_tracker_get_settings_response, hok]
  · simp [handle_tracker_get_settings_response, hok]
  · rw [hopts s, List.length_map]
  · intro i srcOption hi
    rw [hopts s]
    exact ⟨_, by rw [List.getElem?_map, hi]; rfl, rfl, rfl, rfl⟩
  · intro prior
    rw [hopts prior, hopts s]

/-- The get-settings response {exposure 120, gain 30, options [Sharpness: Low, Med,
High, selected 1]} replaces the snapshot of a stage that held exposure 8, gain 16
and an option Contrast. -/
theorem get_settings_response_ok_witness :
    (({ new with
          m_trackerExposure := 8
          m_trackerGain := 16
          m_trackerOptions :=
            [{ option_name := "Contrast", option_strings := ["Off", "On"], option_index := 0 }]
        } : AppStage_ColorCalibration).handle_tracker_get_settings_response
        settingsExample).1.m_trackerExposure = 120 ∧
    (({ new with
          m_trackerExposure := 8
          m_trackerGain := 16
          m_trackerOptions :=
            [{ option_name := "Contrast", option_strings := ["Off", "On"], option_index := 0 }]
        } : AppStage_ColorCalibration).handle_tracker_get_settings_response
        settingsExample).1.m_trackerGain = 30 ∧
    (({ new with
          m_trackerExposure := 8
          m_trackerGain := 16
          m_trackerOptions :=
            [{ option_name := "Contrast", option_strings := ["Off", "On"], option_index := 0 }]
        } : AppStage_ColorCalibration).handle_tracker_get_settings_response
        settingsExample).1.m_trackerOptions =
      [{ option_name := "Sharpness", option_strings := ["Low", "Med", "High"],
         option_index := 1 }] := by
  have h := get_settings_response_ok
    { new with
        m_trackerExposure := 8
        m_trackerGain := 16
        m_trackerOptions :=
          [{ option_name := "Contrast", option_strings := ["Off", "On"], option_index := 0 }] }
    settingsExample rfl
  exact ⟨h.1, h.2.1, h.2.2.1⟩

/-- C7: exposure and gain are only updated from responses.  The set-exposure and
set-gain requests return the stage unchanged (every member variable) and make
exactly one request with its callback; a set-exposure (set-gain) response with
outcome Ok sets the local exposure (gain) to the value carried by the response and
changes no other member variable. -/
theorem exposure_gain_only_from_response (s : AppStage_ColorCalibration) :
    (∀ (trackerID : Int) (value : ℚ),
      s.request_tracker_set_exposure trackerID value =
        (s, [Effect.send_opaque_request (Request.SET_TRACKER_EXPOSURE trackerID value),
             Effect.register_callback Callback.handle_tracker_set_exposure_response])) ∧
    (∀ (trackerID : Int) (value : ℚ),
      s.request_tracker_set_gain trackerID value =
        (s, [Effect.send_opaque_request (Request.SET_TRACKER_GAIN trackerID value),
             Effect.register_callback Callback.handle_tracker_set_gain_response])) ∧
    (∀ response : ResponseMessage, response.result_code = _clientPSMoveResultCode_ok →
      s.handle_tracker_set_exposure_response response =
        ({ s with m_trackerExposure :=
            response.opaque_response_handle.result_set_tracker_exposure.new_exposure }, [])) ∧
    (∀ response : ResponseMessage, response.result_code = _clientPSMoveResultCode_ok →
      s.handle_tracker_set_gain_response response =
        ({ s with m_trackerGain :=
            response.opaque_response_handle.result_set_tracker_gain.new_gain }, [])) := by
  refine ⟨fun _ _ => rfl, fun _ _ => rfl, ?_, ?_⟩
  · intro response hok
    simp [handle_tracker_set_exposure_response, hok]
  · intro response hok
    simp [handle_tracker_set_gain_response, hok]

/-- With local exposure 120 and gain 30, the request to set the exposure to 100
leaves the exposure at 120, and the responses Ok carrying exposure 100 and gain 40
set exactly these. -/
theorem exposure_gain_only_from_response_witness :
    (settingsFetched.request_tracker_set_exposure 0 100).1.m_trackerExposure = 120 ∧
    (settingsFetched.handle_tracker_set_exposure_response
        { ResponseMessage.ofCode _clientPSMoveResultCode_ok with
          opaque_response_handle.result_set_tracker_exposure.new_exposure := 100 }) =
      ({ settingsFetched with m_trackerExposure := 100 }, []) ∧
    (settingsFetched.handle_tracker_set_gain_response
        { ResponseMessage.ofCode _clientPSMoveResultCode_ok with
          opaque_response_handle.result_set_tracker_gain.new_gain := 40 }) =
      ({ settingsFetched with m_trackerGain := 40 }, []) :=
  ⟨(congrArg (fun r => r.1.m_trackerExposure)
      ((exposure_gain_only_from_response settingsFetched).1 0 100)).trans (by decide),
    (exposure_gain_only_from_response settingsFetched).2.2.1 _ rfl,
    (exposure_gain_only_from_response settingsFetched).2.2.2 _ rfl⟩

/-- The position found by `find_if` is at most the length of the list. -/
theorem find_if_le_length {α : Type} (p : α → Bool) (l : List α) :
    find_if p l ≤ l.length := by
  induction l with
  | nil => simp [find_if]
  | cons x xs ih =>
    simp only [find_if, List.length_cons]
    split <;> omega

/-- The position found by `find_if` is the end exactly when no element satisfies
the predicate. -/
theorem find_if_eq_length {α : Type} (p : α → Bool) (l : List α) :
    find_if p l = l.length ↔ ∀ x ∈ l, p x = false := by
  induction l with
  | nil => simp [find_if]
  | cons x xs ih =>
    simp only [find_if, List.length_cons, List.mem_cons, forall_eq_or_imp]
    by_cases hx : p x = true
    · simp [hx]
    · simp only [hx, Bool.false_eq_true, if_false, Nat.add_right_cancel_iff, ih]
      simp [Bool.not_eq_true _ ▸ hx]

/-- No element before the position found by `find_if` satisfies the predicate. -/
theorem find_if_before {α : Type} (p : α → Bool) (l : List α) :
    ∀ (j : Nat) (x : α), j < find_if p l → l[j]? = some x → p x = false := by
  induction l with
  | nil => intro j x h; simp [find_if] at h
  | cons y ys ih =>
    intro j x h hj
    simp only [find_if] at h
    by_cases hy : p y = true
    · simp [hy] at h
    · simp only [hy, Bool.false_eq_true, if_false] at h
      cases j with
      | zero =>
        simp only [List.getElem?_cons_zero, Option.some.injEq] at hj
        subst hj
        simpa using hy
      | succ j =>
        simp only [List.getElem?_cons_succ] at hj
        exact ih j x (by omega) hj

/-- The element at the position found by `find_if`, when there is one, satisfies
the predicate. -/
theorem find_if_at {α : Type} (p : α → Bool) (l : List α) :
    ∀ x : α, l[find_if p l]? = some x → p x = true := by
  induction l with
  | nil => intro x h; simp at h
  | cons y ys ih =>
    intro x h
    simp only [find_if] at h
    by_cases hy : p y = true
    · simp only [hy, if_true, List.getElem?_cons_zero, Option.some.injEq] at h
      exact h ▸ hy
    · simp only [hy, Bool.false_eq_true, if_false, List.getElem?_cons_succ] at h
      exact ih x h

/-- The assignment through the iterator keeps the length of the option vector. -/
theorem assign_option_index_length (options : List TrackerOption) :
    ∀ (it : Nat) (result_option_index : Int),
      (assign_option_index options it result_option_index).length = options.length := by
  induction options with
  | nil => intro it idx; simp [assign_option_index]
  | cons option options ih =>
    intro it idx
    cases it with
    | zero => simp [assign_option_index]
    | succ it => simp [assign_option_index, ih]

/-- The assignment through the iterator changes the selected index of the entry at
the position of the iterator and nothing else. -/
theorem assign_option_index_getElem? (options : List TrackerOption) :
    ∀ (it : Nat) (result_option_index : Int) (i : Nat),
      (assign_option_index options it result_option_index)[i]? =
        if i = it then
          options[i]?.map (fun option => { option with option_index := result_option_index })
        else options[i]? := by
  induction options with
  | nil => intro it idx i; simp [assign_option_index]
  | cons option options ih =>
    intro it idx i
    cases it with
    | zero =>
      cases i with
      | zero => simp [assign_option_index]
      | succ i => simp [assign_option_index]
    | succ it =>
      cases i with
      | zero => simp [assign_option_index]
      | succ i => simp [assign_option_index, ih]

/-- The option list after a set-option response with outcome Ok. -/
theorem set_option_response_options (s : AppStage_ColorCalibration)
    (response : ResponseMessage) (option_name : String) (new_option_index : Int)
    (hok : response.result_code = _clientPSMoveResultCode_ok)
    (hname : response.opaque_response_handle.result_set_tracker_option.option_name =
      option_name)
    (hindex : response.opaque_response_handle.result_set_tracker_option.new_option_index =
      new_option_index) :
    (s.handle_tracker_set_option_response response).1.m_trackerOptions =
      assign_option_index s.m_trackerOptions
        (find_if (fun option => option.option_name == option_name) s.m_trackerOptions)
        new_option_index := by
  simp only [handle_tracker_set_option_response, hok, hname, hindex]
  split
  · rfl
  · rename_i hend
    simp only [ne_eq, Decidable.not_not] at hend
    apply List.ext_getElem?
    intro i
    rw [assign_option_index_getElem?]
    split
    · rename_i hi
      rw [hi, hend]
      simp
    · rfl

/-- C8: after a set-option response with outcome Ok carrying (name, new index),
the option list has the same length, every entry keeps its name and its value
strings, the first entry with that name (no entry before it has the name) has the
new index as its selected index, and every other entry is unchanged; when no
entry has the name the stage is unchanged. -/
theorem set_option_response_ok (s : AppStage_ColorCalibration)
    (response : ResponseMessage) (option_name : String) (new_option_index : Int)
    (hok : response.result_code = _clientPSMoveResultCode_ok)
    (hname : response.opaque_response_handle.result_set_tracker_option.option_name =
      option_name)
    (hindex : response.opaque_response_handle.result_set_tracker_option.new_option_index =
      new_option_index) :
    (s.handle_tracker_set_option_response response).1.m_trackerOptions.length =
      s.m_trackerOptions.length ∧
    (∀ i : Nat,
      (s.handle_tracker_set_option_response response).1.m_trackerOptions[i]?.map
          TrackerOption.option_name = s.m_trackerOptions[i]?.map TrackerOption.option_name ∧
      (s.handle_tracker_set_option_response response).1.m_trackerOptions[i]?.map
          TrackerOption.option_strings =
        s.m_trackerOptions[i]?.map TrackerOption.option_strings) ∧
    (∀ (i : Nat) (option : TrackerOption),
      s.m_trackerOptions[i]? = some option → option.option_name = option_name →
      (∀ (j : Nat) (other : TrackerOption), j < i → s.m_trackerOptions[j]? = some other →
        other.option_name ≠ option_name) →
      (s.handle_tracker_set_option_response response).1.m_trackerOptions[i]? =
        some { option with option_index := new_option_index }) ∧
    (∀ (i : Nat) (option : TrackerOption),
      s.m_trackerOptions[i]? = some option →
      (option.option_name ≠ option_name ∨
        ∃ (j : Nat) (other : TrackerOption), j < i ∧ s.m_trackerOptions[j]? = some other ∧
          other.option_name = option_name) →
      (s.handle_tracker_set_option_response response).1.m_trackerOptions[i]? =
        some option) ∧
    ((∀ option ∈ s.m_trackerOptions, option.option_name ≠ option_name) →
      s.handle_tracker_set_option_response response = (s, [])) := by
  have hres := set_option_response_options s response option_name new_option_index hok
    hname hindex
  refine ⟨?_, ?_, ?_, ?_, ?_⟩
  · rw [hres, assign_option_index_length]
  · intro i
    rw [hres, assign_option_index_getElem?]
    split <;> cases s.m_trackerOptions[i]? <;> simp
  · intro i option hi hn hfirst
    have hfind : find_if (fun option => option.option_name == option_name)
        s.m_trackerOptions = i := by
      rcases Nat.lt_trichotomy
        (find_if (fun option => option.option_name == option_name) s.m_trackerOptions) i
        with hlt | heq | hgt
      · have hlen : i < s.m_trackerOptions.length := by
          rcases Nat.lt_or_ge i s.m_trackerOptions.length with h | h
          · exact h
          · rw [List.getElem?_eq_none h] at hi
            cases hi
        have hsome : s.m_trackerOptions[find_if
            (fun option => option.option_name == option_name) s.m_trackerOptions]? =
            some (s.m_trackerOptions[find_if
              (fun option => option.option_name == option_name) s.m_trackerOptions]) :=
          List.getElem?_eq_getElem (by omega)
        have hp := find_if_at _ _ _ hsome
        exact absurd (by simpa using hp) (hfirst _ _ hlt hsome)
      · exact heq
      · have hp := find_if_before _ _ i option hgt hi
        simp [hn] at hp
    rw [hres, assign_option_index_getElem?, hfind, if_pos rfl, hi]
    rfl
  · intro i option hi hother
    rw [hres, assign_option_index_getElem?]
    split
    · rename_i hfind
      exfalso
      rcases hother with hne | ⟨j, other, hj, hjo, hjn⟩
      · have hp := find_if_at (fun option => option.option_name == option_name)
          s.m_trackerOptions option (hfind ▸ hi)
        exact hne (by simpa using hp)
      · have hp := find_if_before (fun option => option.option_name == option_name)
          s.m_trackerOptions j other (hfind ▸ hj) hjo
        simp [hjn] at hp
    · exact hi
  · intro hnone
    have hend : find_if (fun option => option.option_name == option_name)
        s.m_trackerOptions = s.m_trackerOptions.length := by
      rw [find_if_eq_length]
      intro x hx
      simpa using hnone x hx
    simp [handle_tracker_set_option_response, hok, hname, hend]

/-- The spec's example: after the settings {120, 30, [Sharpness: Low, Med, High,
selected 1]} the response (Sharpness, 2) makes the option list [Sharpness: Low,
Med, High, selected 2], and a response for Contrast leaves the stage unchanged. -/
theorem set_option_response_ok_witness :
    settingsFetched.m_trackerOptions =
      [{ option_name := "Sharpness", option_strings := ["Low", "Med", "High"],
         option_index := 1 }] ∧
    (settingsFetched.handle_tracker_set_option_response
        (setOptionResponse "Sharpness" 2)).1.m_trackerOptions =
      [{ option_name := "Sharpness", option_strings := ["Low", "Med", "High"],
         option_index := 2 }] ∧
    (settingsFetched.handle_tracker_set_option_response
        (setOptionResponse "Sharpness" 2)).1.m_trackerOptions[0]? =
      some { option_name := "Sharpness", option_strings := ["Low", "Med", "High"],
             option_index := 2 } ∧
    (settingsFetched.handle_tracker_set_option_response
        (setOptionResponse "Sharpness" 2)).1.m_trackerOptions.length = 1 ∧
    settingsFetched.handle_tracker_set_option_response (setOptionResponse "Contrast" 0) =
      (settingsFetched, []) :=
  ⟨by decide, by decide,
    (set_option_response_ok settingsFetched (setOptionResponse "Sharpness" 2) "Sharpness" 2
      rfl rfl rfl).2.2.1 0
      { option_name := "Sharpness", option_strings := ["Low", "Med", "High"],
        option_index := 1 }
      (by decide) (by decide) (fun j _ hj => absurd hj (Nat.not_lt_zero j)),
    (set_option_response_ok settingsFetched (setOptionResponse "Sharpness" 2) "Sharpness" 2
      rfl rfl rfl).1,
    (set_option_response_ok settingsFetched (setOptionResponse "Contrast" 0) "Contrast" 0
      rfl rfl rfl).2.2.2.2 (by decide)⟩

/-- C9: a response with outcome Error or Canceled to a get-settings, set-exposure,
set-gain or set-option request leaves every member variable of the stage (the
exposure, the gain and the option list among them) as it was. -/
theorem failed_calibration_response_keeps_state (s : AppStage_ColorCalibration)
    (response : ResponseMessage)
    (hfailed : response.result_code = _clientPSMoveResultCode_error ∨
      response.result_code = _clientPSMoveResultCode_canceled) :
    (s.handle_tracker_get_settings_response response).1 = s ∧
    (s.handle_tracker_set_exposure_response response).1 = s ∧
    (s.handle_tracker_set_gain_response response).1 = s ∧
    (s.handle_tracker_set_option_response response).1 = s := by
  rcases hfailed with h | h <;>
    simp [handle_tracker_get_settings_response, handle_tracker_set_exposure_response,
      handle_tracker_set_gain_response, handle_tracker_set_option_response, h]

/-- The spec's example: with local exposure 120, a set-exposure request for 100
whose response reports Error leaves the local exposure at 120. -/
theorem failed_calibration_response_keeps_state_witness :
    ((((settingsFetched.request_tracker_set_exposure 0 100).1
        ).handle_tracker_set_exposure_response
        (ResponseMessage.ofCode _clientPSMoveResultCode_error)).1).m_trackerExposure = 120 ∧
    (settingsFetched.handle_tracker_set_exposure_response
        (ResponseMessage.ofCode _clientPSMoveResultCode_error)).1 = settingsFetched :=
  ⟨by decide,
    (failed_calibration_response_keeps_state settingsFetched
      (ResponseMessage.ofCode _clientPSMoveResultCode_error) (Or.inl rfl)).2.1⟩

/-- C10: each of the six response handlers does with outcome Canceled exactly
what it does with outcome Error: the same stage and the same calls, whatever the
stage and whatever the response carries. -/
theorem canceled_is_handled_as_error (s : AppStage_ColorCalibration) (payload : Response)
    (trackerView : ClientTrackerView) :
    s.handle_tracker_start_stream_response
        { result_code := _clientPSMoveResultCode_canceled, opaque_response_handle := payload }
        trackerView =
      s.handle_tracker_start_stream_response
        { result_code := _clientPSMoveResultCode_error, opaque_response_handle := payload }
        trackerView ∧
    s.handle_tracker_stop_stream_response
        { result_code := _clientPSMoveResultCode_canceled, opaque_response_handle := payload } =
      s.handle_tracker_stop_stream_response
        { result_code := _clientPSMoveResultCode_error, opaque_response_handle := payload } ∧
    s.handle_tracker_set_exposure_response
        { result_code := _clientPSMoveResultCode_canceled, opaque_response_handle := payload } =
      s.handle_tracker_set_exposure_response
        { result_code := _clientPSMoveResultCode_error, opaque_response_handle := payload } ∧
    s.handle_tracker_set_gain_response
        { result_code := _clientPSMoveResultCode_canceled, opaque_response_handle := payload } =
      s.handle_tracker_set_gain_response
        { result_code := _clientPSMoveResultCode_error, opaque_response_handle := payload } ∧
    s.handle_tracker_set_option_response
        { result_code := _clientPSMoveResultCode_canceled, opaque_response_handle := payload } =
      s.handle_tracker_set_option_response
        { result_code := _clientPSMoveResultCode_error, opaque_response_handle := payload } ∧
    s.handle_tracker_get_settings_response
        { result_code := _clientPSMoveResultCode_canceled, opaque_response_handle := payload } =
      s.handle_tracker_get_settings_response
        { result_code := _clientPSMoveResultCode_error, opaque_response_handle := payload } :=
  ⟨rfl, rfl, rfl, rfl, rfl, rfl⟩

end AppStage_ColorCalibration

namespace AppStage_ColorCalibration

open eTrackerMenuState eClientPSMoveResultCode

/-- C11, as the code has it: a start request made while the stage is active (menu
state idle, stream flag true) is not refused: it sets the menu state
`pendingTrackerStartStreamRequest`, leaves every other member variable unchanged,
sends one start request for the tracker view and registers its callback. -/
theorem start_request_while_active (s : AppStage_ColorCalibration) (trackerID : Int)
    (hidle : s.m_menuState = idle) (_hactive : s.m_bStreamIsActive = true) :
    s.request_tracker_start_stream trackerID =
      ({ s with m_menuState := pendingTrackerStartStreamRequest },
       [Effect.start_tracker_data_stream s.m_trackerView,
        Effect.register_callback Callback.handle_tracker_start_stream_response]) := by
  simp [request_tracker_start_stream, hidle]

/-- The start request on the active stage that streams the tracker view at
address 1 into a 640 x 480 buffer. -/
theorem start_request_while_active_witness :
    ({ new with
        m_menuState := idle
        m_bStreamIsActive := true
        m_trackerView := some 1
        m_videoTexture := some { width := 640, height := 480 } }
      : AppStage_ColorCalibration).request_tracker_start_stream 0 =
      ({ new with
          m_menuState := pendingTrackerStartStreamRequest
          m_bStreamIsActive := true
          m_trackerView := some 1
          m_videoTexture := some { width := 640, height := 480 } },
       [Effect.start_tracker_data_stream (some 1),
        Effect.register_callback Callback.handle_tracker_start_stream_response]) :=
  start_request_while_active _ 0 rfl rfl

/-- C11, as the claim states it, fails: on the active stage that streams the
tracker view at address 1 the start request changes the menu state and sends a
start request, so it is not a no-op. -/
theorem start_request_while_active_is_no_noop :
    (({ new with
          m_menuState := idle
          m_bStreamIsActive := true
          m_trackerView := some 1
          m_videoTexture := some { width := 640, height := 480 } }
        : AppStage_ColorCalibration).request_tracker_start_stream 0).1.m_menuState =
      pendingTrackerStartStreamRequest ∧
    (({ new with
          m_menuState := idle
          m_bStreamIsActive := true
          m_trackerView := some 1
          m_videoTexture := some { width := 640, height := 480 } }
        : AppStage_ColorCalibration).request_tracker_start_stream 0).2 =
      [Effect.start_tracker_data_stream (some 1),
       Effect.register_callback Callback.handle_tracker_start_stream_response] ∧
    ¬ ∀ (s : AppStage_ColorCalibration) (trackerID : Int),
        s.m_menuState = idle → s.m_bStreamIsActive = true →
        s.request_tracker_start_stream trackerID = (s, []) := by
  refine ⟨by decide, by decide, fun h => ?_⟩
  have h1 := h { new with
      m_menuState := idle
      m_bStreamIsActive := true
      m_trackerView := some 1
      m_videoTexture := some { width := 640, height := 480 } } 0 rfl rfl
  exact absurd h1 (by decide)

/-- C12: for every stage, `exit` frees the tracker view behind `m_trackerView`
(one call of `free_tracker_view` with the handle the stage held) and leaves
`m_trackerView` null and the menu state inactive; no other member variable
changes. -/
theorem exit_frees_tracker_view (s : AppStage_ColorCalibration) :
    s.exit =
      ({ s with m_menuState := inactive, m_trackerView := none },
       [Effect.free_tracker_view s.m_trackerView]) ∧
    s.exit.1.m_trackerView = none ∧
    s.exit.1.m_menuState = inactive :=
  ⟨rfl, rfl, rfl⟩

/-- C13: one call of `update` polls the video stream if and only if a display
buffer exists, copies a frame into the buffer if and only if a buffer exists and
the poll reported a new frame, and in every case leaves every member variable
(the menu state, the stream flag, the exposure, the gain and the option list
among them) unchanged, so that no failure state is raised. -/
theorem update_polls_only_with_buffer (s : AppStage_ColorCalibration)
    (pollVideoStream : Bool) :
    (Effect.pollVideoStream ∈ (s.update pollVideoStream).2 ↔ s.m_videoTexture ≠ none) ∧
    (Effect.copyBufferIntoTexture ∈ (s.update pollVideoStream).2 ↔
      s.m_videoTexture ≠ none ∧ pollVideoStream = true) ∧
    (s.update pollVideoStream).1 = s ∧
    (s.update pollVideoStream).2 =
      (if s.m_videoTexture ≠ none then
        (if pollVideoStream = true then
          [Effect.pollVideoStream, Effect.copyBufferIntoTexture]
        else [Effect.pollVideoStream])
      else []) := by
  cases htex : s.m_videoTexture <;> cases pollVideoStream <;> simp [update, htex]

end AppStage_ColorCalibration

/-- C14: after `clear` all six fields of a `CommonHSVColorRange` are 0: the
center and the range of the hue, of the saturation and of the value. -/
theorem CommonHSVColorRange.clear_all_zero (c : CommonHSVColorRange) :
    c.clear.hue_range.center = 0 ∧ c.clear.hue_range.range = 0 ∧
    c.clear.saturation_range.center = 0 ∧ c.clear.saturation_range.range = 0 ∧
    c.clear.value_range.center = 0 ∧ c.clear.value_range.range = 0 :=
  ⟨rfl, rfl, rfl, rfl, rfl, rfl⟩

/-- C15: after `clear` the position of a `CommonDevicePose` is (0, 0, 0) and its
orientation is the identity quaternion (x = 0, y = 0, z = 0, w = 1), whose
squared magnitude is exactly 1. -/
theorem CommonDevicePose.clear_identity (p : CommonDevicePose) :
    p.clear.PositionCm = { x := 0, y := 0, z := 0 } ∧
    p.clear.Orientation = { x := 0, y := 0, z := 0, w := 1 } ∧
    p.clear.Orientation.x ^ 2 + p.clear.Orientation.y ^ 2 + p.clear.Orientation.z ^ 2 +
      p.clear.Orientation.w ^ 2 = 1 := by
  refine ⟨rfl, rfl, ?_⟩
  simp [CommonDevicePose.clear, CommonDeviceQuaternion.clear]

namespace AppStage_ColorCalibration

open eTrackerMenuState eClientPSMoveResultCode

/-- C17 fails on the code: after [enter, start response Ok with the video stream
opening, stop request, stop response Error] the stream flag is false and the
display buffer of 640 x 480 is still allocated; the menu state is
`failedTrackerStopStreamRequest`.  The assertions of `enter` hold on the freshly
constructed stage, and the stop request of the trace is sent. -/
theorem stop_error_keeps_display_buffer :
    new.enter_asserts { tracker_id := 0 } = true ∧
    (new.performAll stopFails).m_bStreamIsActive = false ∧
    (new.performAll stopFails).m_videoTexture = some { width := 640, height := 480 } ∧
    (new.performAll stopFails).m_menuState = failedTrackerStopStreamRequest ∧
    ((new.performAll (stopFails.take 2)).perform (StageAction.request_tracker_stop_stream 0)).2 =
      [Effect.stop_tracker_data_stream (some 1),
       Effect.register_callback Callback.handle_tracker_stop_stream_response] ∧
    ¬ ∀ actions : List StageAction,
        (new.performAll actions).m_bStreamIsActive = false →
        (new.performAll actions).m_videoTexture = none := by
  refine ⟨by decide, by decide, by decide, by decide, by decide, fun h => ?_⟩
  exact absurd (h stopFails (by decide)) (by decide)

/-- One call on the stage keeps: the menu state is idle only if the stream flag
is true. -/
theorem perform_keeps_idle_active (s : AppStage_ColorCalibration) (action : StageAction)
    (hinv : s.m_menuState = idle → s.m_bStreamIsActive = true) :
    (s.perform action).1.m_menuState = idle → (s.perform action).1.m_bStreamIsActive = true := by
  cases action with
  | enter trackerInfo allocated trackerView =>
    simp only [perform, enter, request_tracker_get_settings, request_tracker_start_stream]
    split <;> simp
    exact hinv
  | exit => simp [perform, exit]
  | update pollVideoStream =>
    simp only [perform, update]
    split
    · split <;> exact hinv
    · exact hinv
  | request_tracker_start_stream trackerID =>
    simp only [perform, request_tracker_start_stream]
    split
    · simp
    · exact hinv
  | request_tracker_stop_stream trackerID =>
    simp only [perform, request_tracker_stop_stream]
    split
    · simp
    · exact hinv
  | request_tracker_set_exposure trackerID value => exact hinv
  | request_tracker_set_gain trackerID value => exact hinv
  | request_tracker_set_option trackerID option new_option_index => exact hinv
  | request_tracker_get_settings trackerID => exact hinv
  | response callback response trackerView =>
    obtain ⟨rc, payload⟩ := response
    cases callback <;> cases rc <;>
      simp [perform, Callback.call, handle_tracker_start_stream_response,
        handle_tracker_stop_stream_response, handle_tracker_set_exposure_response,
        handle_tracker_set_gain_response, handle_tracker_set_option_response,
        handle_tracker_get_settings_response, request_tracker_get_settings] <;>
      first
        | exact hinv
        | (split <;> first | exact hinv | simp)

/-- Every sequence of calls keeps: the menu state is idle only if the stream flag
is true. -/
theorem performAll_keeps_idle_active (actions : List StageAction) :
    ∀ s : AppStage_ColorCalibration,
      (s.m_menuState = idle → s.m_bStreamIsActive = true) →
      (s.performAll actions).m_menuState = idle →
      (s.performAll actions).m_bStreamIsActive = true := by
  induction actions with
  | nil => intro s hinv; exact hinv
  | cons action actions ih =>
    intro s hinv
    exact ih (s.perform action).1 (perform_keeps_idle_active s action hinv)

/-- C18: in every stage reached from the freshly constructed stage by any
sequence of `enter`, `exit`, `update`, the request operations and the six
response handlers with any response, the menu state is idle only if the stream
flag is true; hence `renderUI` draws the calibration controls exactly when the
menu state is idle, and never in menu state idle with an inactive stream. -/
theorem idle_only_with_active_stream (actions : List StageAction) :
    ((new.performAll actions).m_menuState = idle →
      (new.performAll actions).m_bStreamIsActive = true) ∧
    ((new.performAll actions).renderUI_offers_calibration = true ↔
      (new.performAll actions).m_menuState = idle) ∧
    ¬ ((new.performAll actions).m_menuState = idle ∧
      (new.performAll actions).m_bStreamIsActive = false) := by
  have h := performAll_keeps_idle_active actions new (by simp [new])
  refine ⟨h, ?_, ?_⟩
  · unfold renderUI_offers_calibration
    split
    · rename_i hidle
      simp [hidle, h hidle]
    · rename_i hne
      simp
      exact fun hidle => hne hidle
  · rintro ⟨hidle, hoff⟩
    rw [h hidle] at hoff
    cases hoff

end AppStage_ColorCalibration

namespace AppStage_ColorCalibration

open eTrackerMenuState eClientPSMoveResultCode

/-- C19, as the code has it: the set-option and get-settings response handlers
keep every selected index a position in its own list of value strings when the
response carries valid indices.  For a set-option response with outcome Ok: if
the invariant holds before and the new index is a position in the value strings
of the first entry with the response's name, the invariant holds after.  For a
get-settings response with outcome Ok: if every option set of the response
selects a position in its own value strings, the invariant holds after. -/
theorem option_index_stays_valid :
    (∀ (s : AppStage_ColorCalibration) (response : ResponseMessage),
      response.result_code = _clientPSMoveResultCode_ok →
      ValidOptions s.m_trackerOptions →
      (∀ (i : Nat) (option : TrackerOption), s.m_trackerOptions[i]? = some option →
        option.option_name =
          response.opaque_response_handle.result_set_tracker_option.option_name →
        (∀ (j : Nat) (other : TrackerOption), j < i → s.m_trackerOptions[j]? = some other →
          other.option_name ≠
            response.opaque_response_handle.result_set_tracker_option.option_name) →
        0 ≤ response.opaque_response_handle.result_set_tracker_option.new_option_index ∧
        response.opaque_response_handle.result_set_tracker_option.new_option_index <
          option.option_strings.length) →
      ValidOptions (s.handle_tracker_set_option_response response).1.m_trackerOptions) ∧
    (∀ (s : AppStage_ColorCalibration) (response : ResponseMessage),
      response.result_code = _clientPSMoveResultCode_ok →
      (∀ srcOption ∈ response.opaque_response_handle.result_tracker_settings.option_sets,
        0 ≤ srcOption.option_index ∧
        srcOption.option_index < srcOption.option_strings.length) →
      ValidOptions (s.handle_tracker_get_settings_response response).1.m_trackerOptions) := by
  constructor
  · intro s response hok hinv hnew option hmem
    rw [set_option_response_options s response _ _ hok rfl rfl] at hmem
    obtain ⟨i, hi⟩ := List.getElem?_of_mem hmem
    rw [assign_option_index_getElem?] at hi
    split at hi
    · rename_i hit
      cases hprior : s.m_trackerOptions[i]? with
      | none => simp [hprior] at hi
      | some prior =>
        simp only [hprior, Option.map_some', Option.some.injEq] at hi
        subst hi
        have hname := find_if_at _ _ prior (hit ▸ hprior)
        have hfirst : ∀ (j : Nat) (other : TrackerOption), j < i →
            s.m_trackerOptions[j]? = some other → other.option_name ≠
              response.opaque_response_handle.result_set_tracker_option.option_name := by
          intro j other hj hother
          have hp := find_if_before _ _ j other (hit ▸ hj) hother
          simpa using hp
        exact hnew i prior hprior (by simpa using hname) hfirst
    · exact hinv option (List.getElem?_mem hi)
  · intro s response hok hvalid option hmem
    have hopts : (s.handle_tracker_get_settings_response response).1.m_trackerOptions =
        response.opaque_response_handle.result_tracker_settings.option_sets.map destOption := by
      simp only [handle_tracker_get_settings_response, hok, foldl_push_back, List.nil_append]
    rw [hopts, List.mem_map] at hmem
    obtain ⟨srcOption, hsrc, rfl⟩ := hmem
    rw [destOption_eq]
    exact hvalid srcOption hsrc

/-- The spec's example: on the settings [Sharpness: Low, Med, High, selected 1]
the set-option response (Sharpness, 2) and the get-settings response of the
example keep the selected index valid. -/
theorem option_index_stays_valid_witness :
    ValidOptions settingsFetched.m_trackerOptions ∧
    ValidOptions (settingsFetched.handle_tracker_set_option_response
      (setOptionResponse "Sharpness" 2)).1.m_trackerOptions ∧
    ValidOptions (new.handle_tracker_get_settings_response settingsExample).1.m_trackerOptions :=
  ⟨by unfold ValidOptions; decide,
    option_index_stays_valid.1 settingsFetched (setOptionResponse "Sharpness" 2) rfl
      (by unfold ValidOptions; decide)
      (by
        intro i option hi _ _
        have hl : settingsFetched.m_trackerOptions =
            [⟨"Sharpness", ["Low", "Med", "High"], 1⟩] := by decide
        rw [hl] at hi
        cases i with
        | zero =>
          simp only [List.getElem?_cons_zero, Option.some.injEq] at hi
          subst hi
          decide
        | succ i => simp at hi),
    option_index_stays_valid.2 new settingsExample rfl (by decide)⟩

/-- C19, as the claim states it, fails: the handlers store the index that the
response carries without a check.  On the valid option list [Sharpness: Low, Med,
High, selected 1] the set-option response (Sharpness, 3) leaves the selected index
3 with three value strings, and the get-settings response whose option set
selects index 3 of three value strings does the same on the fresh stage. -/
theorem response_index_is_not_checked :
    ValidOptions settingsFetched.m_trackerOptions ∧
    (settingsFetched.handle_tracker_set_option_response
      (setOptionResponse "Sharpness" 3)).1.m_trackerOptions =
      [{ option_name := "Sharpness", option_strings := ["Low", "Med", "High"],
         option_index := 3 }] ∧
    ¬ ValidOptions (settingsFetched.handle_tracker_set_option_response
      (setOptionResponse "Sharpness" 3)).1.m_trackerOptions ∧
    ValidOptions new.m_trackerOptions ∧
    ¬ ValidOptions
      (new.handle_tracker_get_settings_response settingsPastTheEnd).1.m_trackerOptions := by
  refine ⟨by unfold ValidOptions; decide, by decide, ?_, by unfold ValidOptions; decide, ?_⟩
  · unfold ValidOptions; decide
  · unfold ValidOptions; decide

end AppStage_ColorCalibration

namespace AppStage_ColorCalibration

/-- An `int` expression whose value fits in 32 bits has that value. -/
theorem int32_eq (x : Int) (hlow : -2147483648 ≤ x) (hhigh : x < 2147483648) :
    int32 x = x := by
  unfold int32
  omega

/-- The index that the button "<" requests, when nothing overflows. -/
theorem previous_option_index_eq (option : TrackerOption)
    (hcount : 1 ≤ option.option_strings.length)
    (hsmall : option.option_strings.length ≤ 1073741824)
    (hlow : 0 ≤ option.option_index)
    (hhigh : option.option_index < option.option_strings.length) :
    previous_option_index option =
      if option.option_index = 0 then (option.option_strings.length : Int) - 1
      else option.option_index - 1 := by
  have hn : value_count option = option.option_strings.length := by
    unfold value_count
    exact int32_eq _ (by omega) (by omega)
  unfold previous_option_index
  rw [hn, int32_eq (option.option_index + option.option_strings.length) (by omega) (by omega),
    int32_eq _ (by omega) (by omega), Int.tmod_eq_emod (by omega) (by omega)]
  split
  · rename_i hzero
    rw [hzero, Int.zero_add]
    exact Int.emod_eq_of_lt (by omega) (by omega)
  · have hsum : option.option_index + (option.option_strings.length : Int) - 1 =
        (option.option_index - 1) + option.option_strings.length := by omega
    rw [hsum, Int.add_emod_self]
    exact Int.emod_eq_of_lt (by omega) (by omega)

/-- The index that the button ">" requests, when nothing overflows. -/
theorem next_option_index_eq (option : TrackerOption)
    (hcount : 1 ≤ option.option_strings.length)
    (hsmall : option.option_strings.length ≤ 1073741824)
    (hlow : 0 ≤ option.option_index)
    (hhigh : option.option_index < option.option_strings.length) :
    next_option_index option =
      if option.option_index = (option.option_strings.length : Int) - 1 then 0
      else option.option_index + 1 := by
  have hn : value_count option = option.option_strings.length := by
    unfold value_count
    exact int32_eq _ (by omega) (by omega)
  unfold next_option_index
  rw [hn, int32_eq _ (by omega) (by omega), Int.tmod_eq_emod (by omega) (by omega)]
  split
  · rename_i hlast
    have hsum : option.option_index + 1 = (option.option_strings.length : Int) := by omega
    rw [hsum]
    exact Int.emod_self
  · exact Int.emod_eq_of_lt (by omega) (by omega)

/-- C20, as the code has it: for every option with at least 1 and at most 2^30
value strings and a selected index i with 0 <= i < value_count, the `int`
`value_count` is the number of value strings and is not zero, no sum overflows,
the index requested by "<" and the index requested by ">" lie in
[0, value_count), "<" steps down and wraps from 0 to value_count - 1, ">" steps
up and wraps from value_count - 1 to 0, and each undoes the other. -/
theorem option_buttons_cycle (option : TrackerOption)
    (hcount : 1 ≤ option.option_strings.length)
    (hsmall : option.option_strings.length ≤ 1073741824)
    (hlow : 0 ≤ option.option_index)
    (hhigh : option.option_index < option.option_strings.length) :
    value_count option = option.option_strings.length ∧
    value_count option ≠ 0 ∧
    option.option_index + value_count option < 2147483648 ∧
    (0 ≤ previous_option_index option ∧ previous_option_index option < value_count option) ∧
    (0 ≤ next_option_index option ∧ next_option_index option < value_count option) ∧
    previous_option_index option =
      (if option.option_index = 0 then value_count option - 1 else option.option_index - 1) ∧
    next_option_index option =
      (if option.option_index = value_count option - 1 then 0 else option.option_index + 1) ∧
    previous_option_index { option with option_index := next_option_index option } =
      option.option_index ∧
    next_option_index { option with option_index := previous_option_index option } =
      option.option_index := by
  have hn : value_count option = option.option_strings.length := by
    unfold value_count
    exact int32_eq _ (by omega) (by omega)
  have hprev := previous_option_index_eq option hcount hsmall hlow hhigh
  have hnext := next_option_index_eq option hcount hsmall hlow hhigh
  have hprev_range : 0 ≤ previous_option_index option ∧
      previous_option_index option < option.option_strings.length := by
    rw [hprev]
    split <;> omega
  have hnext_range : 0 ≤ next_option_index option ∧
      next_option_index option < option.option_strings.length := by
    rw [hnext]
    split <;> omega
  have hback := previous_option_index_eq
    { option with option_index := next_option_index option } hcount hsmall
    hnext_range.1 hnext_range.2
  have hforth := next_option_index_eq
    { option with option_index := previous_option_index option } hcount hsmall
    hprev_range.1 hprev_range.2
  simp only at hback hforth
  refine ⟨hn, by omega, by omega, by omega, by omega, by rw [hn]; exact hprev,
    by rw [hn]; exact hnext, ?_, ?_⟩
  · rw [hback, hnext]
    split <;> split <;> omega
  · rw [hforth, hprev]
    split <;> split <;> omega

/-- The option [Low, Med, High] with index 0 selected: "<" requests 2, ">"
requests 1, and each undoes the other. -/
theorem option_buttons_cycle_witness :
    previous_option_index
      { option_name := "Sharpness", option_strings := ["Low", "Med", "High"],
        option_index := 0 } = 2 ∧
    next_option_index
      { option_name := "Sharpness", option_strings := ["Low", "Med", "High"],
        option_index := 0 } = 1 ∧
    previous_option_index
      { ({ option_name := "Sharpness", option_strings := ["Low", "Med", "High"],
           option_index := 0 } : TrackerOption) with
        option_index := next_option_index
          { option_name := "Sharpness", option_strings := ["Low", "Med", "High"],
            option_index := 0 } } = 0 :=
  ⟨by decide, by decide,
    (option_buttons_cycle
      { option_name := "Sharpness", option_strings := ["Low", "Med", "High"],
        option_index := 0 } (by decide) (by decide) (by decide) (by decide)).2.2.2.2.2.2.2.1⟩

/-- C20, as the claim states it, fails in `int` arithmetic: for the option with
2^30 + 1 value strings of which the last is selected (value_count 1073741825,
index 1073741824, so 0 <= i < value_count), the sum i + value_count - 1 is 2^31,
which is -2^31 as an `int`, and the index requested by "<" is -1073741823, not in
[0, value_count). -/
theorem previous_option_index_overflows :
    value_count manyValues = 1073741825 ∧
    0 ≤ manyValues.option_index ∧
    manyValues.option_index < value_count manyValues ∧
    previous_option_index manyValues = -1073741823 ∧
    ¬ (0 ≤ previous_option_index manyValues) := by
  have hlength : manyValues.option_strings.length = 1073741825 :=
    List.length_replicate 1073741825 ""
  have hindex : manyValues.option_index = 1073741824 := rfl
  have hcount : value_count manyValues = 1073741825 := by
    unfold value_count
    rw [hlength]
    decide
  have hprev : previous_option_index manyValues = -1073741823 := by
    unfold previous_option_index
    rw [hcount, hindex]
    decide
  refine ⟨hcount, ?_, ?_, hprev, ?_⟩
  · rw [hindex]
    decide
  · rw [hcount, hindex]
    decide
  · rw [hprev]
    decide

end AppStage_ColorCalibration

/-- Reading an array back from its elements followed by anything. -/
theorem read_array_members (n : Nat) :
    ∀ (a : Fin n → ℚ) (rest : List ScalarMember),
      read_array n (array_members a ++ rest) = some (a, rest) := by
  induction n with
  | zero =>
    intro a rest
    simp only [array_members, List.ofFn_zero, List.map_nil, List.nil_append, read_array]
    congr
    funext i
    exact i.elim0
  | succ n ih =>
    intro a rest
    have h := ih (fun i => a i.succ) rest
    simp only [array_members] at h
    simp only [array_members, List.ofFn_succ, List.map_cons, List.cons_append, read_array, h]
    congr
    exact Fin.cons_self_tail a

/-- The types of the scalar members of a mono intrinsics: six of type `float`,
then fourteen of type `double`, whatever the values. -/
theorem CommonMonoTrackerIntrinsics.member_types (m : CommonMonoTrackerIntrinsics) :
    m.members.map ScalarMember.type =
      List.replicate 6 ScalarType.float ++ List.replicate 14 ScalarType.double := by
  simp [CommonMonoTrackerIntrinsics.members, CommonDistortionCoefficients.members,
    array_members, List.ofFn_succ, ScalarMember.type, List.replicate]

/-- C16: the leading members of `CommonStereoTrackerIntrinsics` coincide, in
order and type, with all the members of `CommonMonoTrackerIntrinsics`: the scalar
members of every mono intrinsics have the types of the leading scalar members of
every stereo intrinsics, and the members of the equivalently configured mono
intrinsics are the leading members of the stereo intrinsics.  Hence reading
`mono_intrinsics` from a `CommonTrackerIntrinsics` that holds a stereo intrinsics
yields the mono intrinsics configured with the same pixel size, field of view,
clip range, (left) distortion and (left) camera matrix, the same value that is
read back when that mono intrinsics is written. -/
theorem CommonTrackerIntrinsics.stereo_reads_as_mono (st : CommonStereoTrackerIntrinsics) :
    (∀ m : CommonMonoTrackerIntrinsics,
      m.members.map ScalarMember.type <+: st.members.map ScalarMember.type) ∧
    st.equivalentMono.members <+: st.members ∧
    (CommonTrackerIntrinsics.ofStereo st).mono_intrinsics = some st.equivalentMono ∧
    (CommonTrackerIntrinsics.ofMono st.equivalentMono).mono_intrinsics =
      some st.equivalentMono ∧
    (CommonTrackerIntrinsics.ofStereo st).mono_intrinsics =
      (CommonTrackerIntrinsics.ofMono st.equivalentMono).mono_intrinsics := by
  have hprefix : st.equivalentMono.members <+: st.members := by
    refine ⟨st.right_distortion_coefficients.members ++
      array_members st.right_camera_matrix ++
      array_members st.left_rectification_rotation ++
      array_members st.right_rectification_rotation ++
      array_members st.left_rectification_projection ++
      array_members st.right_rectification_projection ++
      array_members st.rotation_between_cameras ++
      array_members st.translation_between_cameras ++
      array_members st.essential_matrix ++
      array_members st.fundamental_matrix ++
      array_members st.reprojection_matrix, ?_⟩
    simp only [CommonStereoTrackerIntrinsics.members, CommonMonoTrackerIntrinsics.members,
      CommonStereoTrackerIntrinsics.equivalentMono, List.append_assoc]
  have hstereo : (CommonTrackerIntrinsics.ofStereo st).mono_intrinsics =
      some st.equivalentMono := by
    obtain ⟨rest, hrest⟩ := hprefix
    simp only [CommonTrackerIntrinsics.mono_intrinsics, CommonTrackerIntrinsics.ofStereo,
      ← hrest]
    simp only [CommonMonoTrackerIntrinsics.members, CommonDistortionCoefficients.members,
      List.append_assoc, List.cons_append, List.nil_append,
      CommonMonoTrackerIntrinsics.read, read_array_members]
  have hmono : (CommonTrackerIntrinsics.ofMono st.equivalentMono).mono_intrinsics =
      some st.equivalentMono := by
    have h := read_array_members 9 st.equivalentMono.camera_matrix []
    rw [List.append_nil] at h
    simp only [CommonTrackerIntrinsics.mono_intrinsics, CommonTrackerIntrinsics.ofMono,
      CommonMonoTrackerIntrinsics.members, CommonDistortionCoefficients.members,
      List.append_assoc, List.cons_append, List.nil_append,
      CommonMonoTrackerIntrinsics.read, h]
  refine ⟨?_, hprefix, hstereo, hmono, hstereo.trans hmono.symm⟩
  intro m
  rw [CommonMonoTrackerIntrinsics.member_types m,
    ← CommonMonoTrackerIntrinsics.member_types st.equivalentMono]
  exact hprefix.map ScalarMember.type

/-- The camera matrix after `init_camera_matrix`, whatever it held before. -/
theorem CommonMonoTrackerIntrinsics.init_camera_matrix_entries
    (m : CommonMonoTrackerIntrinsics) (F_PX F_PY PrincipalX PrincipalY : ℚ) :
    (m.init_camera_matrix F_PX F_PY PrincipalX PrincipalY).camera_matrix =
      ![F_PX, 0, PrincipalX, 0, F_PY, PrincipalY, 0, 0, 1] := by
  funext i
  fin_cases i <;>
    simp [CommonMonoTrackerIntrinsics.init_camera_matrix, Function.update] <;> rfl

/-- C21: for every F_PX, F_PY, PrincipalX, PrincipalY and every prior content of
the matrix, `init_camera_matrix` overwrites all nine entries of the row-major
3 x 3 camera matrix with [F_PX, 0, PrincipalX; 0, F_PY, PrincipalY; 0, 0, 1]:
entry 0 is F_PX, entry 2 PrincipalX, entry 4 F_PY, entry 5 PrincipalY, entry 8 is
1 and entries 1, 3, 6, 7 are 0; no other member of the mono intrinsics changes,
and the result does not depend on the prior matrix. -/
theorem CommonMonoTrackerIntrinsics.init_camera_matrix_overwrites
    (m : CommonMonoTrackerIntrinsics) (F_PX F_PY PrincipalX PrincipalY : ℚ) :
    m.init_camera_matrix F_PX F_PY PrincipalX PrincipalY =
      { m with camera_matrix := ![F_PX, 0, PrincipalX, 0, F_PY, PrincipalY, 0, 0, 1] } ∧
    ((m.init_camera_matrix F_PX F_PY PrincipalX PrincipalY).camera_matrix 0 = F_PX ∧
      (m.init_camera_matrix F_PX F_PY PrincipalX PrincipalY).camera_matrix 1 = 0 ∧
      (m.init_camera_matrix F_PX F_PY PrincipalX PrincipalY).camera_matrix 2 = PrincipalX ∧
      (m.init_camera_matrix F_PX F_PY PrincipalX PrincipalY).camera_matrix 3 = 0 ∧
      (m.init_camera_matrix F_PX F_PY PrincipalX PrincipalY).camera_matrix 4 = F_PY ∧
      (m.init_camera_matrix F_PX F_PY PrincipalX PrincipalY).camera_matrix 5 = PrincipalY ∧
      (m.init_camera_matrix F_PX F_PY PrincipalX PrincipalY).camera_matrix 6 = 0 ∧
      (m.init_camera_matrix F_PX F_PY PrincipalX PrincipalY).camera_matrix 7 = 0 ∧
      (m.init_camera_matrix F_PX F_PY PrincipalX PrincipalY).camera_matrix 8 = 1) ∧
    (∀ row column : Fin 3,
      (m.init_camera_matrix F_PX F_PY PrincipalX PrincipalY).camera_matrix
          ⟨3 * row.val + column.val, by omega⟩ =
        !![F_PX, 0, PrincipalX; 0, F_PY, PrincipalY; 0, 0, 1] row column) ∧
    ((m.init_camera_matrix F_PX F_PY PrincipalX PrincipalY).pixel_width = m.pixel_width ∧
      (m.init_camera_matrix F_PX F_PY PrincipalX PrincipalY).pixel_height = m.pixel_height ∧
      (m.init_camera_matrix F_PX F_PY PrincipalX PrincipalY).hfov = m.hfov ∧
      (m.init_camera_matrix F_PX F_PY PrincipalX PrincipalY).vfov = m.vfov ∧
      (m.init_camera_matrix F_PX F_PY PrincipalX PrincipalY).znear = m.znear ∧
      (m.init_camera_matrix F_PX F_PY PrincipalX PrincipalY).zfar = m.zfar ∧
      (m.init_camera_matrix F_PX F_PY PrincipalX PrincipalY).distortion_coefficients =
        m.distortion_coefficients) ∧
    (∀ prior : Fin 9 → ℚ,
      ({ m with camera_matrix := prior } : CommonMonoTrackerIntrinsics).init_camera_matrix
          F_PX F_PY PrincipalX PrincipalY =
        m.init_camera_matrix F_PX F_PY PrincipalX PrincipalY) := by
  have hentries := CommonMonoTrackerIntrinsics.init_camera_matrix_entries m F_PX F_PY
    PrincipalX PrincipalY
  have hwhole : ∀ m1 : CommonMonoTrackerIntrinsics,
      m1.init_camera_matrix F_PX F_PY PrincipalX PrincipalY =
        { m1 with camera_matrix := ![F_PX, 0, PrincipalX, 0, F_PY, PrincipalY, 0, 0, 1] } := by
    intro m1
    have h1 := CommonMonoTrackerIntrinsics.init_camera_matrix_entries m1 F_PX F_PY
      PrincipalX PrincipalY
    cases m1
    simp only [CommonMonoTrackerIntrinsics.init_camera_matrix] at h1 ⊢
    rw [h1]
  refine ⟨hwhole m, ?_, ?_, ⟨rfl, rfl, rfl, rfl, rfl, rfl, rfl⟩, ?_⟩
  · rw [hentries]
    exact ⟨rfl, rfl, rfl, rfl, rfl, rfl, rfl, rfl, rfl⟩
  · intro row column
    rw [hentries]
    fin_cases row <;> fin_cases column <;> rfl
  · intro prior
    rw [hwhole, hwhole m]

/-- On a camera matrix that held 7 in every entry, `init_camera_matrix` with focal
lengths 554 and 555 and principal point (320, 240) leaves the nine entries
554, 0, 320, 0, 555, 240, 0, 0, 1 and the pixel width 640. -/
theorem CommonMonoTrackerIntrinsics.init_camera_matrix_overwrites_witness :
    (monoExample.init_camera_matrix 554 555 320 240).camera_matrix =
      ![554, 0, 320, 0, 555, 240, 0, 0, 1] ∧
    (monoExample.init_camera_matrix 554 555 320 240).camera_matrix 7 = 0 ∧
    (monoExample.init_camera_matrix 554 555 320 240).pixel_width = 640 :=
  ⟨congrArg CommonMonoTrackerIntrinsics.camera_matrix
      (CommonMonoTrackerIntrinsics.init_camera_matrix_overwrites monoExample 554 555 320 240).1,
    (CommonMonoTrackerIntrinsics.init_camera_matrix_overwrites monoExample
      554 555 320 240).2.1.2.2.2.2.2.2.2.1,
    (CommonMonoTrackerIntrinsics.init_camera_matrix_overwrites monoExample
      554 555 320 240).2.2.2.1.1⟩
